import Mathlib

/-!
Verification of the optimized cooling-tower control engine
(processCoolingTowerControl and its helper functions).

Times are modelled in integer milliseconds, analog values as rationals.
JavaScript truthiness on numbers (0 is falsy) is modelled explicitly where
the source relies on it.  The external PID library is modelled as an
optional oracle function; a pid call that throws is modelled by the oracle
returning none.
-/

namespace CoolingTower

/-- A triple of per-tower (or per-pump) values, indexed 1..3 like the
string-keyed fields of the source. -/
structure Tri (α : Type) where
  a : α
  b : α
  c : α
deriving DecidableEq, Repr

def Tri.get {α : Type} (t : Tri α) (n : Nat) : α :=
  if n = 1 then t.a else if n = 2 then t.b else t.c

def Tri.set {α : Type} (t : Tri α) (n : Nat) (x : α) : Tri α :=
  if n = 1 then { t with a := x } else if n = 2 then { t with b := x } else { t with c := x }

def Tri.const {α : Type} (x : α) : Tri α := ⟨x, x, x⟩

/-- JavaScript numeric default: value || d (0 and missing are falsy). -/
def jsOr (v : Option ℚ) (d : ℚ) : ℚ :=
  match v with
  | some x => if x = 0 then d else x
  | none => d

/-- JavaScript truthiness of an optional millisecond timestamp
(null and 0 are falsy). -/
def jsSet (v : Option Int) : Bool :=
  match v with
  | some x => x ≠ 0
  | none => false

-- ================= CONFIGURATION (optimized variant) =================

def BYPASS_VIBRATION_LIMITS : Bool := false
def BYPASS_CURRENT_LIMITS : Bool := false
def BYPASS_EMERGENCY_STOP : Bool := false
def BYPASS_WATER_LEVEL : Bool := false
def BYPASS_PUMP_STATUS : Bool := false
def BYPASS_VFD_FAULTS : Bool := false

def TOWER_AVAILABLE : Nat → Bool
  | 1 => true
  | 2 => true
  | _ => false   -- TOWER_3_AVAILABLE: false (down for repair)

def PUMP_AVAILABLE : Nat → Bool
  | 1 => true
  | 2 => true
  | 3 => true
  | _ => false

def VIBRATION_WARNING_LIMIT : ℚ := 4.5
def VIBRATION_CRITICAL_LIMIT : ℚ := 7.1
def VFD_CURRENT_WARNING : ℚ := 40.0
def VFD_CURRENT_CRITICAL : ℚ := 45.0
def PUMP_CURRENT_MIN : ℚ := 5.0
def PUMP_CURRENT_MAX : ℚ := 45.0
def STAGE_1_DELTA_T : ℚ := 10.0
def STAGE_2_DELTA_T : ℚ := 20.0
def STAGE_3_DELTA_T : ℚ := 30.0
def STAGE_4_DELTA_T : ℚ := 35.0
def VFD_MIN_SPEED : ℚ := 2.6
def VFD_MAX_SPEED : ℚ := 4.8
def VFD_LOW_SPEED : ℚ := 3.5
def MINIMUM_RUNTIME_MS : Int := 420000
def MINIMUM_OFFTIME_MS : Int := 180000
def PUMP_CHANGEOVER_OVERLAP_MS : Int := 5000
def WEEK_IN_MS : Int := 7 * 24 * 60 * 60 * 1000

def TOWER_ID : Nat → String
  | 1 => "QNiHngLxledu7BHM9wLi"
  | 2 => "H2lwkgXBNDsvnuKoDUQe"
  | _ => "QYTVSM7IMylxDc2Y0pxr"

-- ================= CARRIED STATE =================

/-- Per-tower start/stop timer pair (milliseconds since epoch). -/
structure Timer where
  startTime : Option Int
  stopTime : Option Int
deriving DecidableEq, Repr

/-- Per-tower VFD speed-ramping state. -/
structure RampState where
  currentSpeed : ℚ
  targetSpeed : ℚ
  lastChange : Int
deriving DecidableEq, Repr

/-- PID controller state threaded to the external library. -/
structure PidState where
  integral : ℚ
  previousError : ℚ
  lastOutput : ℚ
deriving DecidableEq, Repr

structure TowersState where
  leadTower : Nat
  lastRotationTime : Int
  runtimeTracking : Tri ℚ
  timers : Tri Timer
  speedRamping : Tri RampState
deriving DecidableEq, Repr

structure ChangeoverState where
  newPump : Nat
  startTime : Int
deriving DecidableEq, Repr

structure PumpsState where
  activePump : Nat
  lastRotationTime : Int
  runtimeTracking : Tri ℚ
  changeoverState : Option ChangeoverState
  failoverCount : Nat
  lastFailoverTime : Int
deriving DecidableEq, Repr

structure PidStates where
  tower1 : PidState
  tower2 : PidState
  tower3 : PidState
  valve : PidState
deriving DecidableEq, Repr

def PidStates.getTower (p : PidStates) (n : Nat) : PidState :=
  if n = 1 then p.tower1 else if n = 2 then p.tower2 else p.tower3

def PidStates.setTower (p : PidStates) (n : Nat) (st : PidState) : PidStates :=
  if n = 1 then { p with tower1 := st }
  else if n = 2 then { p with tower2 := st }
  else { p with tower3 := st }

/-- Last-known-good values of the four loop temperatures. -/
structure LastGoodTemps where
  towerSupply : ℚ
  towerReturn : ℚ
  hpReturn : ℚ
  hpSupply : ℚ
deriving DecidableEq, Repr

/-- The whole carried state threaded across ticks (stateStorage). -/
structure CtState where
  towers : TowersState
  pumps : PumpsState
  pidStates : PidStates
  lastGoodTemps : LastGoodTemps
deriving DecidableEq, Repr

/-- The default state built by the state initializer for a fresh
stateStorage (initializeState in the source). -/
def mkInitialState (now : Int) : CtState :=
  { towers :=
      { leadTower := 1
        lastRotationTime := now
        runtimeTracking := Tri.const 0
        timers := Tri.const ⟨none, none⟩
        speedRamping := Tri.const ⟨0, 0, 0⟩ }
    pumps :=
      { activePump := 1
        lastRotationTime := now
        runtimeTracking := Tri.const 0
        changeoverState := none
        failoverCount := 0
        lastFailoverTime := 0 }
    pidStates :=
      { tower1 := ⟨0, 0, VFD_MIN_SPEED⟩
        tower2 := ⟨0, 0, VFD_MIN_SPEED⟩
        tower3 := ⟨0, 0, VFD_MIN_SPEED⟩
        valve := ⟨0, 0, 6.0⟩ }
    lastGoodTemps := ⟨85, 95, 85, 75⟩ }

-- ================= SENSOR DATA =================

/-- The raw input snapshot keys the engine reads (absent keys are none). -/
structure RawData where
  AI1 : Option ℚ := none
  AI2 : Option ℚ := none
  AI3 : Option ℚ := none
  AI4 : Option ℚ := none
  AI5 : Option ℚ := none
  AI6 : Option ℚ := none
  CH8 : Option ℚ := none
  CH5 : Option ℚ := none
  CH6 : Option ℚ := none
  CH10 : Option ℚ := none
  CH9 : Option ℚ := none
  CH1 : Option ℚ := none
  CH2 : Option ℚ := none
  outdoorTemp : Option ℚ := none
  WTV801_1 : Option ℚ := none
  WTV801_2 : Option ℚ := none
  WTV801_3 : Option ℚ := none
  userSetpoint : Option ℚ := none
  targetSupplyTemp : Option ℚ := none
deriving DecidableEq, Repr

structure Temps where
  towerSupply : ℚ
  towerReturn : ℚ
  hpReturn : ℚ
  hpSupply : ℚ
  outdoor : ℚ
deriving DecidableEq, Repr

structure VfdCurrents where
  tower1A : ℚ
  tower1B : ℚ
  tower2A : ℚ
  tower2B : ℚ
  tower3A : ℚ
  tower3B : ℚ
deriving DecidableEq, Repr

structure SensorData where
  vfdCurrents : VfdCurrents
  pumpCurrents : Tri ℚ
  temps : Temps
  vibration : Tri ℚ
  targetSetpoint : ℚ
deriving DecidableEq, Repr

/-- sanitizeTemperatures: accept loop temperatures in 40..120 °F
(updating last-good), substitute the truthy last-good value otherwise;
outdoor accepts -20..120 °F else 75. -/
def sanitizeTemperatures (temps : Temps) (lastGood : LastGoodTemps) :
    Temps × LastGoodTemps :=
  let san1 : ℚ → ℚ → ℚ × ℚ := fun t lg =>
    if 40 ≤ t ∧ t ≤ 120 then (t, t)
    else if lg ≠ 0 then (lg, lg)
    else (t, lg)
  let ts := san1 temps.towerSupply lastGood.towerSupply
  let tr := san1 temps.towerReturn lastGood.towerReturn
  let hr := san1 temps.hpReturn lastGood.hpReturn
  let hs := san1 temps.hpSupply lastGood.hpSupply
  let od := if -20 ≤ temps.outdoor ∧ temps.outdoor ≤ 120 then temps.outdoor else 75
  (⟨ts.1, tr.1, hr.1, hs.1, od⟩, ⟨ts.2, tr.2, hr.2, hs.2⟩)

/-- parseSensorData: channel extraction with JavaScript numeric defaults,
followed by temperature sanitization (which updates last-good temps). -/
def parseSensorData (data : RawData) (lastGood : LastGoodTemps) :
    SensorData × LastGoodTemps :=
  let rawTemps : Temps :=
    { towerSupply := jsOr data.CH10 75
      towerReturn := jsOr data.CH9 85
      hpReturn := jsOr data.CH1 85
      hpSupply := jsOr data.CH2 75
      outdoor := jsOr data.outdoorTemp 75 }
  let san := sanitizeTemperatures rawTemps lastGood
  ({ vfdCurrents :=
      { tower1A := jsOr data.AI1 0
        tower1B := jsOr data.AI2 0
        tower2A := jsOr data.AI3 0
        tower2B := jsOr data.AI4 0
        tower3A := jsOr data.AI5 0
        tower3B := jsOr data.AI6 0 }
     pumpCurrents := ⟨jsOr data.CH8 0, jsOr data.CH5 0, jsOr data.CH6 0⟩
     temps := san.1
     vibration := ⟨jsOr data.WTV801_1 0, jsOr data.WTV801_2 0, jsOr data.WTV801_3 0⟩
     targetSetpoint := jsOr data.userSetpoint (jsOr data.targetSupplyTemp 75) },
   san.2)

-- ================= CONTROL RESULT =================

/-- The per-tick output snapshot (controlResult in the source; the
ISO-string timestamp and the constant equipment-id map are omitted). -/
structure ControlResult where
  vfdEnable : Tri Bool
  fanSpeed : Tri ℚ
  bypassValvePosition : ℚ
  temperingValvePosition : ℚ
  pumpEnable : Tri Bool
  isoOpen : Tri Bool
  isoClose : Tri Bool
  heaterEnable : Tri Bool
  systemEnabled : Bool
  emergencyStop : Bool
  controlMode : String
  leadTower : Nat
  activeTowers : Nat
  coolingDemand : ℚ
  vfdCurrentMirror : VfdCurrents
  pumpCurrentMirror : Tri ℚ
  pumpRunning : Tri Bool
  towerLoopSupplyTemp : ℚ
  towerLoopReturnTemp : ℚ
  heatPumpReturnTemp : ℚ
  heatPumpSupplyTemp : ℚ
  outdoorTemp : ℚ
  vibrationLevel : Tri ℚ
  vibrationOK : Tri Bool
  targetSupplyTemp : ℚ
  loopDeltaT : ℚ
  alarmStatus : String
  faultConditions : List String
  safetyBypasses : List String
  controlTimestamp : Int
deriving DecidableEq, Repr

def ControlResult.setEnable (r : ControlResult) (n : Nat) (b : Bool) : ControlResult :=
  { r with vfdEnable := r.vfdEnable.set n b }

def ControlResult.setSpeed (r : ControlResult) (n : Nat) (v : ℚ) : ControlResult :=
  { r with fanSpeed := r.fanSpeed.set n v }

def ControlResult.setIsoOpen (r : ControlResult) (n : Nat) (b : Bool) : ControlResult :=
  { r with isoOpen := r.isoOpen.set n b }

def ControlResult.setIsoClose (r : ControlResult) (n : Nat) (b : Bool) : ControlResult :=
  { r with isoClose := r.isoClose.set n b }

def ControlResult.setPumpEnable (r : ControlResult) (n : Nat) (b : Bool) : ControlResult :=
  { r with pumpEnable := r.pumpEnable.set n b }

def ControlResult.setHeater (r : ControlResult) (n : Nat) (b : Bool) : ControlResult :=
  { r with heaterEnable := r.heaterEnable.set n b }

/-- initializeControlResult: default outputs plus mirrored sensor readings
(flattenSensorData). -/
def initControlResult (sensor : SensorData) (now : Int) : ControlResult :=
  { vfdEnable := Tri.const false
    fanSpeed := Tri.const 0
    bypassValvePosition := 2.0
    temperingValvePosition := 2.0
    pumpEnable := Tri.const false
    isoOpen := Tri.const false
    isoClose := Tri.const false
    heaterEnable := Tri.const false
    systemEnabled := true
    emergencyStop := false
    controlMode := "auto"
    leadTower := 1
    activeTowers := 0
    coolingDemand := 0
    vfdCurrentMirror := sensor.vfdCurrents
    pumpCurrentMirror := sensor.pumpCurrents
    pumpRunning :=
      ⟨sensor.pumpCurrents.a > PUMP_CURRENT_MIN,
       sensor.pumpCurrents.b > PUMP_CURRENT_MIN,
       sensor.pumpCurrents.c > PUMP_CURRENT_MIN⟩
    towerLoopSupplyTemp := sensor.temps.towerSupply
    towerLoopReturnTemp := sensor.temps.towerReturn
    heatPumpReturnTemp := sensor.temps.hpReturn
    heatPumpSupplyTemp := sensor.temps.hpSupply
    outdoorTemp := sensor.temps.outdoor
    vibrationLevel := sensor.vibration
    vibrationOK :=
      ⟨sensor.vibration.a ≤ VIBRATION_CRITICAL_LIMIT,
       sensor.vibration.b ≤ VIBRATION_CRITICAL_LIMIT,
       sensor.vibration.c ≤ VIBRATION_CRITICAL_LIMIT⟩
    targetSupplyTemp := sensor.targetSetpoint
    loopDeltaT := sensor.temps.hpSupply - sensor.targetSetpoint
    alarmStatus := "normal"
    faultConditions := []
    safetyBypasses := []
    controlTimestamp := now }

-- ================= SAFETY GATE =================

def vibCritFault (n : Nat) (level : ℚ) : List String :=
  if level > VIBRATION_CRITICAL_LIMIT then
    ["TOWER" ++ toString n ++ "_HIGH_VIBRATION_CRITICAL (ID: " ++ TOWER_ID n ++ ")"]
  else []

def vfdCritFault (n : Nat) (current : ℚ) : List String :=
  if current > VFD_CURRENT_CRITICAL then
    ["TOWER" ++ toString n ++ "_CRITICAL_VFD_CURRENT (ID: " ++ TOWER_ID n ++ ")"]
  else []

def pumpOverFault (n : Nat) (current : ℚ) : List String :=
  if current > PUMP_CURRENT_MAX then
    ["PUMP" ++ toString n ++ "_OVERCURRENT (Tower ID: " ++ TOWER_ID n ++ ")"]
  else []

/-- The critical fault list built by performSafetyChecks, in source order:
three vibration checks, six VFD-leg current checks, three pump currents. -/
def criticalFaultList (sensor : SensorData) : List String :=
  (if BYPASS_VIBRATION_LIMITS then []
   else vibCritFault 1 sensor.vibration.a ++ vibCritFault 2 sensor.vibration.b ++
        vibCritFault 3 sensor.vibration.c) ++
  (if BYPASS_CURRENT_LIMITS then []
   else vfdCritFault 1 sensor.vfdCurrents.tower1A ++ vfdCritFault 1 sensor.vfdCurrents.tower1B ++
        vfdCritFault 2 sensor.vfdCurrents.tower2A ++ vfdCritFault 2 sensor.vfdCurrents.tower2B ++
        vfdCritFault 3 sensor.vfdCurrents.tower3A ++ vfdCritFault 3 sensor.vfdCurrents.tower3B ++
        pumpOverFault 1 sensor.pumpCurrents.a ++ pumpOverFault 2 sensor.pumpCurrents.b ++
        pumpOverFault 3 sensor.pumpCurrents.c)

def safetyBypassList : List String :=
  (if BYPASS_VIBRATION_LIMITS then ["VIBRATION_LIMITS_BYPASSED"] else []) ++
  (if BYPASS_CURRENT_LIMITS then ["CURRENT_LIMITS_BYPASSED"] else []) ++
  (if BYPASS_EMERGENCY_STOP then ["EMERGENCY_STOP_BYPASSED"] else []) ++
  (if BYPASS_WATER_LEVEL then ["WATER_LEVEL_BYPASSED"] else []) ++
  (if BYPASS_VFD_FAULTS then ["VFD_FAULTS_BYPASSED"] else [])

/-- performSafetyChecks: record faults and bypasses; on any critical fault
command a safe shutdown of all towers and report unsafe (false). -/
def performSafetyChecks (sensor : SensorData) (r : ControlResult) :
    ControlResult × Bool :=
  let faults := criticalFaultList sensor
  let r := { r with faultConditions := faults, safetyBypasses := safetyBypassList }
  if faults ≠ [] then
    ({ r with
        alarmStatus := "critical"
        systemEnabled := false
        vfdEnable := Tri.const false
        fanSpeed := Tri.const 0
        isoClose := Tri.const true
        isoOpen := Tri.const false }, false)
  else (r, true)

-- ================= LEAD ROTATION AND STAGING =================

/-- performLeadTowerRotation: advance lead tower on a weekly boundary,
scanning (current mod 3)+1 up to three attempts for an available tower
(the do-while loop is unrolled). -/
def performLeadTowerRotation (s : CtState) (now : Int) : CtState :=
  if now - s.towers.lastRotationTime > WEEK_IN_MS then
    let n1 := (s.towers.leadTower % 3) + 1
    let next :=
      if TOWER_AVAILABLE n1 then n1
      else
        let n2 := (n1 % 3) + 1
        if TOWER_AVAILABLE n2 then n2 else (n2 % 3) + 1
    if TOWER_AVAILABLE next then
      { s with towers := { s.towers with leadTower := next, lastRotationTime := now } }
    else s
  else s

structure StagingDecision where
  demandedTowers : Nat
  coolingDemand : ℚ
  deltaT : ℚ
  leadTower : Nat
  lagTower1 : Nat
  lagTower2 : Nat
deriving DecidableEq, Repr

/-- isAnyTowerCurrentlyRunning: a startTime strictly different from null
(note: not JavaScript truthiness here). -/
def isAnyTowerCurrentlyRunning (s : CtState) : Bool :=
  (s.towers.timers.a.startTime).isSome || (s.towers.timers.b.startTime).isSome ||
    (s.towers.timers.c.startTime).isSome

/-- getCurrentlyRunningTowerCount: counts truthy startTime values. -/
def getCurrentlyRunningTowerCount (s : CtState) : Nat :=
  (if jsSet s.towers.timers.a.startTime then 1 else 0) +
  (if jsSet s.towers.timers.b.startTime then 1 else 0) +
  (if jsSet s.towers.timers.c.startTime then 1 else 0)

/-- calculateStaging: the staging decision table of the source. -/
def calculateStaging (sensor : SensorData) (s : CtState) : StagingDecision :=
  let deltaT := sensor.temps.hpSupply - sensor.targetSetpoint
  let anyTowerRunning := isAnyTowerCurrentlyRunning s
  let dd :=
    if deltaT < -15 ∨ sensor.temps.hpSupply < 65 ∨ sensor.temps.towerSupply < 50 then
      ((0 : Nat), (0 : ℚ))
    else if anyTowerRunning ∧ deltaT ≥ -5 then
      (max 1 (getCurrentlyRunningTowerCount s), max 28 (min 100 (28 + deltaT * 3)))
    else if deltaT ≥ STAGE_1_DELTA_T then
      if deltaT ≥ STAGE_4_DELTA_T then (3, 100)
      else if deltaT ≥ STAGE_3_DELTA_T then (3, 75)
      else if deltaT ≥ STAGE_2_DELTA_T then (2, 60)
      else (1, max 28 (min 50 (28 + (deltaT - 10) * 2)))
    else (0, 0)
  { demandedTowers := dd.1
    coolingDemand := dd.2
    deltaT := deltaT
    leadTower := s.towers.leadTower
    lagTower1 := (s.towers.leadTower % 3) + 1
    lagTower2 := ((s.towers.leadTower + 1) % 3) + 1 }

-- ================= PUMP SUPERVISOR =================

/-- findNextAvailablePump: scan (i mod 3)+1 up to three attempts
(do-while unrolled); null when no candidate is available. -/
def findNextAvailablePump (currentPump : Nat) : Option Nat :=
  let n1 := (currentPump % 3) + 1
  let n :=
    if PUMP_AVAILABLE n1 then n1
    else
      let n2 := (n1 % 3) + 1
      if PUMP_AVAILABLE n2 then n2 else (n2 % 3) + 1
  if PUMP_AVAILABLE n then some n else none

/-- checkPumpFailure: schedule a failover changeover when the active pump
should be running, draws under 10 A, and the 30 s debounce has elapsed. -/
def checkPumpFailure (sensor : SensorData) (p : PumpsState) (r : ControlResult)
    (now : Int) : PumpsState :=
  let activePumpCurrent := sensor.pumpCurrents.get p.activePump
  let timeSinceLastFailover := now - p.lastFailoverTime
  let shouldBeRunning :=
    r.pumpEnable.get p.activePump ||
      (p.changeoverState.isNone && !BYPASS_PUMP_STATUS)
  if shouldBeRunning ∧ activePumpCurrent < 10.0 ∧ timeSinceLastFailover > 30000 then
    match findNextAvailablePump p.activePump with
    | some nextPump =>
        if PUMP_AVAILABLE nextPump then
          { p with
              changeoverState := some ⟨nextPump, now⟩
              failoverCount := p.failoverCount + 1
              lastFailoverTime := now }
        else p
    | none => p
  else p

/-- checkPumpRotation: schedule a weekly-rotation changeover when due and
no changeover is already in progress. -/
def checkPumpRotation (p : PumpsState) (now : Int) : PumpsState :=
  if now - p.lastRotationTime ≥ WEEK_IN_MS ∧ p.changeoverState.isNone then
    match findNextAvailablePump p.activePump with
    | some nextPump =>
        if nextPump ≠ p.activePump then
          { p with
              changeoverState := some ⟨nextPump, now⟩
              lastRotationTime := now }
        else p
    | none => p
  else p

/-- updatePumpRuntime: accumulate 7 s (in hours) onto the active pump. -/
def updatePumpRuntime (p : PumpsState) : PumpsState :=
  { p with
      runtimeTracking :=
        p.runtimeTracking.set p.activePump
          (p.runtimeTracking.get p.activePump + 7 / 3600000) }

/-- controlPumps: changeover execution, failure detection, weekly
rotation, then enabling of the active pump. -/
def controlPumps (sensor : SensorData) (s : CtState) (r : ControlResult)
    (now : Int) : ControlResult × CtState :=
  if BYPASS_PUMP_STATUS then
    (r.setPumpEnable 1 true, s)
  else
    let p0 := s.pumps
    let rp :=
      match p0.changeoverState with
      | some co =>
          if now - co.startTime < PUMP_CHANGEOVER_OVERLAP_MS then
            ((r.setPumpEnable p0.activePump true).setPumpEnable co.newPump true, p0)
          else
            (r, { p0 with activePump := co.newPump, changeoverState := none })
      | none => (r, p0)
    let r := rp.1
    let p := checkPumpFailure sensor rp.2 r now
    let p := checkPumpRotation p now
    let r := if p.changeoverState.isNone then r.setPumpEnable p.activePump true else r
    let p := updatePumpRuntime p
    (r, { s with pumps := p })

-- ================= TOWER COMMANDER =================

/-- One invocation of the external PID library: the call carries the input,
setpoint, dt and prior state; a result of none models a thrown error
(caught by the engine, which then falls back). -/
structure PidCall where
  input : ℚ
  setpoint : ℚ
  dt : ℚ
  controllerType : String
  state : PidState

/-- The external PID library as an oracle; none models the library being
unavailable (require failed). -/
def PidFn : Type := PidCall → Option (ℚ × PidState)

/-- calculateFallbackSpeed: integrator-style proportional fallback. -/
def calculateFallbackSpeed (coolingDemand : ℚ) (pidState : PidState) :
    ℚ × PidState :=
  let speed := if pidState.lastOutput ≠ 0 then pidState.lastOutput else VFD_MIN_SPEED
  let speed :=
    if coolingDemand > 50 then min (speed + 0.1) VFD_MAX_SPEED
    else if coolingDemand < 30 then max (speed - 0.1) VFD_MIN_SPEED
    else speed
  (speed, { pidState with lastOutput := speed })

/-- applySpeedRamping: initialize a zero ramp to minimum speed, step by at
most 0.3 V toward the target when 15 s have elapsed since the last change
(measured against the pre-initialization lastChange, as in the source),
and clamp the commanded value into the VFD speed range. -/
def applySpeedRamping (targetSpeed : ℚ) (ramp : RampState) (now : Int) :
    ℚ × RampState :=
  let timeSinceLastChange := now - ramp.lastChange
  let ramp :=
    if ramp.currentSpeed = 0 then
      { ramp with currentSpeed := VFD_MIN_SPEED, lastChange := now }
    else ramp
  let ramp :=
    if timeSinceLastChange ≥ 15000 then
      let difference := targetSpeed - ramp.currentSpeed
      if |difference| > 0.1 then
        let step :=
          (if difference > 0 then (1 : ℚ) else if difference < 0 then -1 else 0) *
            min |difference| 0.3
        { ramp with currentSpeed := ramp.currentSpeed + step, lastChange := now }
      else ramp
    else ramp
  let ramp := { ramp with targetSpeed := targetSpeed }
  (max VFD_MIN_SPEED (min VFD_MAX_SPEED ramp.currentSpeed), ramp)

/-- calculateTowerSpeed: startup floor for the first 420 s, minimum speed
within 2 °F of setpoint, otherwise PID (or fallback) target fed through
the ramp filter. -/
def calculateTowerSpeed (pid? : Option PidFn) (towerNum : Nat)
    (coolingDemand : ℚ) (sensor : SensorData) (s : CtState) (now : Int) :
    ℚ × CtState :=
  let timer := s.towers.timers.get towerNum
  if jsSet timer.startTime ∧ now - timer.startTime.getD 0 < MINIMUM_RUNTIME_MS then
    (VFD_MIN_SPEED, s)
  else if |sensor.temps.hpSupply - sensor.targetSetpoint| < 2 then
    (VFD_MIN_SPEED, s)
  else
    let pidState := s.pidStates.getTower towerNum
    let tp :=
      match pid? with
      | some pid =>
          match pid { input := sensor.temps.hpSupply
                      setpoint := sensor.targetSetpoint
                      dt := 15
                      controllerType := "tower" ++ toString towerNum ++ "_vfd"
                      state := pidState } with
          | some outSt => outSt
          | none => calculateFallbackSpeed coolingDemand pidState
      | none => calculateFallbackSpeed coolingDemand pidState
    let ramp := s.towers.speedRamping.get towerNum
    let sr := applySpeedRamping tp.1 ramp now
    (sr.1,
     { s with
         pidStates := s.pidStates.setTower towerNum tp.2
         towers := { s.towers with speedRamping := s.towers.speedRamping.set towerNum sr.2 } })

/-- canEnableTower: availability plus the 3-minute off cooldown. -/
def canEnableTower (towerNum : Nat) (s : CtState) (now : Int) : Bool :=
  if !TOWER_AVAILABLE towerNum then false
  else
    let timer := s.towers.timers.get towerNum
    if jsSet timer.stopTime then
      if now - timer.stopTime.getD 0 < MINIMUM_OFFTIME_MS then false else true
    else true

/-- enableTower: assert enable and valve-open, start the runtime timer if
not already running, then compute and apply the fan speed. -/
def enableTower (pid? : Option PidFn) (towerNum : Nat) (coolingDemand : ℚ)
    (sensor : SensorData) (s : CtState) (r : ControlResult) (now : Int) :
    ControlResult × CtState :=
  let r := ((r.setEnable towerNum true).setIsoOpen towerNum true).setIsoClose towerNum false
  let timer := s.towers.timers.get towerNum
  let s :=
    if !jsSet timer.startTime then
      { s with towers :=
          { s.towers with timers := s.towers.timers.set towerNum ⟨some now, none⟩ } }
    else s
  let sp := calculateTowerSpeed pid? towerNum coolingDemand sensor s now
  (r.setSpeed towerNum sp.1, sp.2)

/-- One tower of enforceMinimumRuntimes: a tower with a truthy startup
timer that the commander left disabled is forced on before 420 s; after
420 s it is shut down (timer cleared, stop time written) only when deltaT
is below -10 °F, and otherwise forced on with its start time retained. -/
def enforceOne (deltaT : ℚ) (i : Nat) (s : CtState) (r : ControlResult)
    (now : Int) : ControlResult × CtState :=
  let timer := s.towers.timers.get i
  if jsSet timer.startTime ∧ r.vfdEnable.get i = false then
    let runtimeMs := now - timer.startTime.getD 0
    if runtimeMs < MINIMUM_RUNTIME_MS then
      ((((r.setEnable i true).setSpeed i VFD_MIN_SPEED).setIsoOpen i true).setIsoClose i false, s)
    else if deltaT < -10 then
      (r, { s with towers :=
              { s.towers with timers := s.towers.timers.set i ⟨none, some now⟩ } })
    else
      ((((r.setEnable i true).setSpeed i VFD_MIN_SPEED).setIsoOpen i true).setIsoClose i false, s)
  else (r, s)

/-- enforceMinimumRuntimes over the three towers in order. -/
def enforceMinimumRuntimes (sensor : SensorData) (s : CtState)
    (r : ControlResult) (now : Int) : ControlResult × CtState :=
  let deltaT := sensor.temps.hpSupply - sensor.targetSetpoint
  let o1 := enforceOne deltaT 1 s r now
  let o2 := enforceOne deltaT 2 o1.2 o1.1 now
  enforceOne deltaT 3 o2.2 o2.1 now

/-- controlTowers: reset all tower outputs, enable the demanded towers in
lead-first order when permitted, then enforce minimum runtimes and update
the staging summary fields. -/
def controlTowers (pid? : Option PidFn) (staging : StagingDecision)
    (sensor : SensorData) (s : CtState) (r : ControlResult) (now : Int) :
    ControlResult × CtState :=
  let r := { r with
      vfdEnable := Tri.const false
      fanSpeed := Tri.const 0
      isoOpen := Tri.const false
      isoClose := Tri.const true }
  let towersToEnable :=
    (if staging.demandedTowers ≥ 1 then [staging.leadTower] else []) ++
    (if staging.demandedTowers ≥ 2 then [staging.lagTower1] else []) ++
    (if staging.demandedTowers ≥ 3 then [staging.lagTower2] else [])
  let rs := towersToEnable.foldl
    (fun (acc : ControlResult × CtState) towerNum =>
      if canEnableTower towerNum acc.2 now then
        enableTower pid? towerNum staging.coolingDemand sensor acc.2 acc.1 now
      else acc)
    (r, s)
  let out := enforceMinimumRuntimes sensor rs.2 rs.1 now
  ({ out.1 with
      leadTower := staging.leadTower
      activeTowers := staging.demandedTowers
      coolingDemand := staging.coolingDemand }, out.2)

-- ================= UI COMMANDS, VALVES, HEATERS =================

/-- The recognized UI commands (absent keys are none). -/
structure UICommands where
  systemEnabled : Option Bool := none
  controlMode : Option String := none
  towerVFDEnable : Tri (Option Bool) := Tri.const none
  towerFanSpeed : Tri (Option ℚ) := Tri.const none
  towerHeaterEnable : Tri (Option Bool) := Tri.const none
  bypassValvePosition : Option ℚ := none
  temperingValvePosition : Option ℚ := none
deriving Repr

def clampValve (v : ℚ) : ℚ := max 2.0 (min 10.0 v)

/-- applyFallbackValveControl: fixed tempering positions by outdoor band. -/
def applyFallbackValveControl (outdoorTemp : ℚ) (r : ControlResult) : ControlResult :=
  if outdoorTemp < 35 then { r with temperingValvePosition := 7.6 }
  else { r with temperingValvePosition := 6.0 }

/-- controlValves: UI overrides first (a tempering override returns
immediately), then the warm-weather 2.0 V regime, otherwise the
cold-weather PID (or fallback) tempering control with outdoor-band floors
and a 0.4 V slew limit; the bypass valve is forced to 2.0 V on every
automatic path. -/
def controlValves (pid? : Option PidFn) (sensor : SensorData) (s : CtState)
    (r : ControlResult) (ui : UICommands) : ControlResult × CtState :=
  let r :=
    match ui.bypassValvePosition with
    | some v => { r with bypassValvePosition := clampValve v }
    | none => r
  match ui.temperingValvePosition with
  | some v => ({ r with temperingValvePosition := clampValve v }, s)
  | none =>
    if sensor.temps.outdoor ≥ 42 then
      ({ r with bypassValvePosition := 2.0, temperingValvePosition := 2.0 },
       { s with pidStates :=
           { s.pidStates with valve :=
               { s.pidStates.valve with integral := 0, lastOutput := 2.0 } } })
    else
      let hpLoopTemp := (sensor.temps.hpSupply + sensor.temps.hpReturn) / 2
      let rs :=
        match pid? with
        | some pid =>
            if r.systemEnabled then
              match pid { input := hpLoopTemp
                          setpoint := 45.0
                          dt := 7
                          controllerType := "valve_control"
                          state := s.pidStates.valve } with
              | some (out, st) =>
                  let temperingPosition := out
                  let temperingPosition :=
                    if sensor.temps.outdoor < 35 then max temperingPosition 6.8
                    else if sensor.temps.outdoor < 40 then max temperingPosition 5.2
                    else temperingPosition
                  let lastPosition := if st.lastOutput ≠ 0 then st.lastOutput else 5.0
                  let temperingPosition :=
                    if |temperingPosition - lastPosition| > 0.4 then
                      lastPosition +
                        (if temperingPosition > lastPosition then (0.4 : ℚ) else -0.4)
                    else temperingPosition
                  ({ r with temperingValvePosition := temperingPosition },
                   { s with pidStates :=
                       { s.pidStates with valve :=
                           { st with lastOutput := temperingPosition } } })
              | none => (applyFallbackValveControl sensor.temps.outdoor r, s)
            else (applyFallbackValveControl sensor.temps.outdoor r, s)
        | none => (applyFallbackValveControl sensor.temps.outdoor r, s)
      ({ rs.1 with bypassValvePosition := 2.0 }, rs.2)

/-- controlHeaters: enable all three below 35 °F, disable all above 45 °F,
and leave the result untouched in between. -/
def controlHeaters (outdoorTemp : ℚ) (r : ControlResult) : ControlResult :=
  if outdoorTemp < 35 then { r with heaterEnable := Tri.const true }
  else if outdoorTemp > 45 then { r with heaterEnable := Tri.const false }
  else r

-- ================= MONITORING, OVERRIDES, SUMMARY =================

def vfdWarnFault (n : Nat) (current : ℚ) : List String :=
  if current > VFD_CURRENT_WARNING ∧ current ≤ VFD_CURRENT_CRITICAL then
    ["TOWER" ++ toString n ++ "_HIGH_VFD_CURRENT_WARNING (ID: " ++ TOWER_ID n ++ ")"]
  else []

def vibWarnFault (n : Nat) (level : ℚ) : List String :=
  if level > VIBRATION_WARNING_LIMIT ∧ level ≤ VIBRATION_CRITICAL_LIMIT then
    ["TOWER" ++ toString n ++ "_HIGH_VIBRATION_WARNING (ID: " ++ TOWER_ID n ++ ")"]
  else []

/-- Speed clamp applied on a VFD current warning. -/
def clampWarnSpeed (n : Nat) (current : ℚ) (r : ControlResult) : ControlResult :=
  if current > VFD_CURRENT_WARNING ∧ current ≤ VFD_CURRENT_CRITICAL then
    if r.fanSpeed.get n > VFD_LOW_SPEED then r.setSpeed n VFD_LOW_SPEED else r
  else r

/-- applyCurrentAndVibrationMonitoring: append warning-level faults, clamp
offending fan speeds, and escalate the alarm to warning. -/
def applyCurrentAndVibrationMonitoring (sensor : SensorData) (r : ControlResult) :
    ControlResult :=
  let vfdWarnings :=
    if BYPASS_CURRENT_LIMITS then []
    else vfdWarnFault 1 sensor.vfdCurrents.tower1A ++ vfdWarnFault 1 sensor.vfdCurrents.tower1B ++
         vfdWarnFault 2 sensor.vfdCurrents.tower2A ++ vfdWarnFault 2 sensor.vfdCurrents.tower2B ++
         vfdWarnFault 3 sensor.vfdCurrents.tower3A ++ vfdWarnFault 3 sensor.vfdCurrents.tower3B
  let r :=
    if BYPASS_CURRENT_LIMITS then r
    else
      let r := clampWarnSpeed 1 sensor.vfdCurrents.tower1A r
      let r := clampWarnSpeed 1 sensor.vfdCurrents.tower1B r
      let r := clampWarnSpeed 2 sensor.vfdCurrents.tower2A r
      let r := clampWarnSpeed 2 sensor.vfdCurrents.tower2B r
      let r := clampWarnSpeed 3 sensor.vfdCurrents.tower3A r
      clampWarnSpeed 3 sensor.vfdCurrents.tower3B r
  let vibWarnings :=
    if BYPASS_VIBRATION_LIMITS then []
    else vibWarnFault 1 sensor.vibration.a ++ vibWarnFault 2 sensor.vibration.b ++
         vibWarnFault 3 sensor.vibration.c
  let warnings := vfdWarnings ++ vibWarnings
  if warnings ≠ [] then
    { r with alarmStatus := "warning", faultConditions := r.faultConditions ++ warnings }
  else r

/-- applyManualOverrides: system enable, control mode, and per-tower
enable, speed and heater overrides from the UI.  The source assigns each
overridden key in sequence; the assignments are independent, so they are
rendered field-wise here. -/
def applyManualOverrides (ui : UICommands) (r : ControlResult) : ControlResult :=
  { r with
      systemEnabled := ui.systemEnabled.getD r.systemEnabled
      controlMode := ui.controlMode.getD r.controlMode
      vfdEnable :=
        ⟨ui.towerVFDEnable.a.getD r.vfdEnable.a,
         ui.towerVFDEnable.b.getD r.vfdEnable.b,
         ui.towerVFDEnable.c.getD r.vfdEnable.c⟩
      fanSpeed :=
        ⟨ui.towerFanSpeed.a.getD r.fanSpeed.a,
         ui.towerFanSpeed.b.getD r.fanSpeed.b,
         ui.towerFanSpeed.c.getD r.fanSpeed.c⟩
      heaterEnable :=
        ⟨ui.towerHeaterEnable.a.getD r.heaterEnable.a,
         ui.towerHeaterEnable.b.getD r.heaterEnable.b,
         ui.towerHeaterEnable.c.getD r.heaterEnable.c⟩ }

/-- One tower of the sub-minimum coercion in updateControlResultSummary. -/
def coerceSubMinimum (i : Nat) (r : ControlResult) : ControlResult :=
  if r.fanSpeed.get i > 0 ∧ r.fanSpeed.get i < VFD_MIN_SPEED then
    (r.setSpeed i 0).setEnable i false
  else r

/-- updateControlResultSummary: copy the staging summary and force any
fan speed strictly between 0 V and the minimum down to 0 V with its VFD
disabled. -/
def updateControlResultSummary (r : ControlResult) (staging : StagingDecision)
    (sensor : SensorData) : ControlResult :=
  let r := { r with
      leadTower := staging.leadTower
      activeTowers := staging.demandedTowers
      coolingDemand := staging.coolingDemand
      loopDeltaT := staging.deltaT
      targetSupplyTemp := sensor.targetSetpoint }
  coerceSubMinimum 3 (coerceSubMinimum 2 (coerceSubMinimum 1 r))

-- ================= THE FULL TICK =================

/-- The automatic control sequence run when the tick passes the safety
gate in enabled auto mode. -/
def autoSequence (pid? : Option PidFn) (sensor : SensorData) (ui : UICommands)
    (s : CtState) (r : ControlResult) (now : Int) : ControlResult × CtState :=
  let s := performLeadTowerRotation s now
  let staging := calculateStaging sensor s
  let rsP := controlPumps sensor s r now
  let rsT := controlTowers pid? staging sensor rsP.2 rsP.1 now
  let rsV := controlValves pid? sensor rsT.2 rsT.1 ui
  let r := controlHeaters sensor.temps.outdoor rsV.1
  let r := applyCurrentAndVibrationMonitoring sensor r
  (updateControlResultSummary r staging sensor, rsV.2)

/-- processCoolingTowerControl (optimized variant): one full control tick,
returning the command snapshot and the updated carried state. -/
def step (pid? : Option PidFn) (data : RawData) (ui : UICommands)
    (s : CtState) (now : Int) : ControlResult × CtState :=
  let parsed := parseSensorData data s.lastGoodTemps
  let sensor := parsed.1
  let s := { s with lastGoodTemps := parsed.2 }
  let r := initControlResult sensor now
  let safety := performSafetyChecks sensor r
  if safety.2 = false then (safety.1, s)
  else
    let r := applyManualOverrides ui safety.1
    if r.systemEnabled = false ∨ r.controlMode ≠ "auto" then (r, s)
    else autoSequence pid? sensor ui s r now

-- ================= BASIC LEMMAS =================

theorem Tri.get_one {α : Type} (t : Tri α) : t.get 1 = t.a := rfl

theorem Tri.get_two {α : Type} (t : Tri α) : t.get 2 = t.b := rfl

theorem Tri.get_three {α : Type} (t : Tri α) : t.get 3 = t.c := rfl

theorem jsSet_eq_isSome {v : Option Int} (h : v ≠ some 0) : jsSet v = v.isSome := by
  cases v with
  | none => rfl
  | some x =>
      simp only [jsSet, Option.isSome]
      simp only [ne_eq, Option.some.injEq] at h
      simp [h]

-- ================= CLAIM C7 (sensor sanitizer) =================

/-- Claim C7 counterexample: a fresh state initializes the last-known-good
tower-supply temperature to 85 °F (not 75 °F as the claim states), so an
out-of-range tower-supply reading of 130 °F on the first tick is replaced
by 85 °F. -/
theorem claim7_cex :
    (mkInitialState 0).lastGoodTemps.towerSupply = 85 ∧
    (mkInitialState 0).lastGoodTemps.towerReturn = 95 ∧
    (sanitizeTemperatures ⟨130, 85, 85, 75, 70⟩
        (mkInitialState 0).lastGoodTemps).1.towerSupply = 85 ∧
    (85 : ℚ) ≠ 75 := by
  refine ⟨rfl, rfl, ?_, by norm_num⟩
  rfl

/-- Claim C7 (amended): each of the four loop temperatures is accepted
exactly when it lies in 40..120 °F; an out-of-range value is replaced by
the last-known-good value (whose initial defaults are 85/95/85/75 °F for
tower-supply/tower-return/HP-return/HP-supply), and the last-good store is
updated only with accepted values. -/
theorem claim7_sanitize (temps : Temps) (lg : LastGoodTemps)
    (h1 : lg.towerSupply ≠ 0) (h2 : lg.towerReturn ≠ 0)
    (h3 : lg.hpReturn ≠ 0) (h4 : lg.hpSupply ≠ 0) :
    (∀ now, (mkInitialState now).lastGoodTemps = ⟨85, 95, 85, 75⟩) ∧
    ((40 ≤ temps.towerSupply ∧ temps.towerSupply ≤ 120 →
        (sanitizeTemperatures temps lg).1.towerSupply = temps.towerSupply ∧
        (sanitizeTemperatures temps lg).2.towerSupply = temps.towerSupply) ∧
     (¬(40 ≤ temps.towerSupply ∧ temps.towerSupply ≤ 120) →
        (sanitizeTemperatures temps lg).1.towerSupply = lg.towerSupply ∧
        (sanitizeTemperatures temps lg).2.towerSupply = lg.towerSupply)) ∧
    ((40 ≤ temps.towerReturn ∧ temps.towerReturn ≤ 120 →
        (sanitizeTemperatures temps lg).1.towerReturn = temps.towerReturn ∧
        (sanitizeTemperatures temps lg).2.towerReturn = temps.towerReturn) ∧
     (¬(40 ≤ temps.towerReturn ∧ temps.towerReturn ≤ 120) →
        (sanitizeTemperatures temps lg).1.towerReturn = lg.towerReturn ∧
        (sanitizeTemperatures temps lg).2.towerReturn = lg.towerReturn)) ∧
    ((40 ≤ temps.hpReturn ∧ temps.hpReturn ≤ 120 →
        (sanitizeTemperatures temps lg).1.hpReturn = temps.hpReturn ∧
        (sanitizeTemperatures temps lg).2.hpReturn = temps.hpReturn) ∧
     (¬(40 ≤ temps.hpReturn ∧ temps.hpReturn ≤ 120) →
        (sanitizeTemperatures temps lg).1.hpReturn = lg.hpReturn ∧
        (sanitizeTemperatures temps lg).2.hpReturn = lg.hpReturn)) ∧
    ((40 ≤ temps.hpSupply ∧ temps.hpSupply ≤ 120 →
        (sanitizeTemperatures temps lg).1.hpSupply = temps.hpSupply ∧
        (sanitizeTemperatures temps lg).2.hpSupply = temps.hpSupply) ∧
     (¬(40 ≤ temps.hpSupply ∧ temps.hpSupply ≤ 120) →
        (sanitizeTemperatures temps lg).1.hpSupply = lg.hpSupply ∧
        (sanitizeTemperatures temps lg).2.hpSupply = lg.hpSupply)) := by
  refine ⟨fun now => rfl, ?_, ?_, ?_, ?_⟩ <;>
    constructor <;> intro h <;>
      simp only [sanitizeTemperatures] <;>
      split_ifs <;>
      simp_all

/-- Witness for claim C7 at a concrete input. -/
theorem claim7_sanitize_wit :
    ((85 : ℚ) ≠ 0) ∧
    ((sanitizeTemperatures ⟨130, 85, 85, 75, 70⟩ ⟨85, 95, 85, 75⟩).1.towerSupply = 85 ∧
     (sanitizeTemperatures ⟨130, 85, 85, 75, 70⟩ ⟨85, 95, 85, 75⟩).2.towerSupply = 85) := by
  have h := claim7_sanitize ⟨130, 85, 85, 75, 70⟩ ⟨85, 95, 85, 75⟩
    (by norm_num) (by norm_num) (by norm_num) (by norm_num)
  exact ⟨by norm_num, h.2.1.2 (by norm_num)⟩

-- ================= CLAIM C6 (VFD ramp filter) =================

/-- Claim C6 counterexample: with the target (3 V) below the current
voltage (4 V) and only 16 s elapsed since the last change, the claim's
20 s ramp-down delay would keep the prior voltage, but applySpeedRamping
uses a fixed 15 s delay on both directions and steps down to 3.7 V. -/
theorem claim6_cex :
    (3 : ℚ) < 4 ∧ (16000 : Int) < 20000 ∧
    (applySpeedRamping 3 ⟨4, 4, 0⟩ 16000).2.currentSpeed = 3.7 ∧
    (applySpeedRamping 3 ⟨4, 4, 0⟩ 16000).1 = 3.7 ∧
    ((3.7 : ℚ) ≠ 4) := by
  refine ⟨by norm_num, by norm_num, ?_, ?_, by norm_num⟩ <;>
    norm_num [applySpeedRamping, VFD_MIN_SPEED, VFD_MAX_SPEED, abs, min_def, max_def]

/-- Claim C6 (amended): away from the first-activation initialization
(current voltage nonzero), applySpeedRamping keeps the prior voltage when
less than 15 s (in either direction) has elapsed since the last change,
and otherwise moves the stored voltage toward the target by at most
0.3 V without overshooting; the commanded output is the stored voltage
clamped into the VFD speed range. -/
theorem claim6_ramp (target : ℚ) (ramp : RampState) (now : Int)
    (h0 : ramp.currentSpeed ≠ 0) :
    (now - ramp.lastChange < 15000 →
       (applySpeedRamping target ramp now).2.currentSpeed = ramp.currentSpeed) ∧
    |(applySpeedRamping target ramp now).2.currentSpeed - ramp.currentSpeed| ≤ 0.3 ∧
    (ramp.currentSpeed ≤ target →
       ramp.currentSpeed ≤ (applySpeedRamping target ramp now).2.currentSpeed ∧
       (applySpeedRamping target ramp now).2.currentSpeed ≤ target) ∧
    (target ≤ ramp.currentSpeed →
       target ≤ (applySpeedRamping target ramp now).2.currentSpeed ∧
       (applySpeedRamping target ramp now).2.currentSpeed ≤ ramp.currentSpeed) ∧
    (applySpeedRamping target ramp now).1 =
      max VFD_MIN_SPEED
        (min VFD_MAX_SPEED (applySpeedRamping target ramp now).2.currentSpeed) := by
  simp only [applySpeedRamping, if_neg h0]
  split_ifs with hT habs hpos hneg
  · dsimp only
    rw [abs_of_pos hpos] at habs ⊢
    rcases le_total (target - ramp.currentSpeed) 0.3 with hm | hm
    · rw [min_eq_left hm]
      refine ⟨fun hc => absurd hT (by linarith), ?_,
        fun hc => ⟨by linarith, by linarith⟩, fun hc => ⟨by linarith, by linarith⟩, trivial⟩
      rw [abs_le]; constructor <;> linarith
    · rw [min_eq_right hm]
      refine ⟨fun hc => absurd hT (by linarith), ?_,
        fun hc => ⟨by linarith, by linarith⟩, fun hc => ⟨by linarith, by linarith⟩, trivial⟩
      rw [abs_le]; constructor <;> linarith
  · dsimp only
    rw [abs_of_neg hneg] at habs ⊢
    rcases le_total (-(target - ramp.currentSpeed)) 0.3 with hm | hm
    · rw [min_eq_left hm]
      refine ⟨fun hc => absurd hT (by linarith), ?_,
        fun hc => ⟨by linarith, by linarith⟩, fun hc => ⟨by linarith, by linarith⟩, trivial⟩
      rw [abs_le]; constructor <;> linarith
    · rw [min_eq_right hm]
      refine ⟨fun hc => absurd hT (by linarith), ?_,
        fun hc => ⟨by linarith, by linarith⟩, fun hc => ⟨by linarith, by linarith⟩, trivial⟩
      rw [abs_le]; constructor <;> linarith
  · exfalso
    have hz : target - ramp.currentSpeed = 0 := by
      push_neg at hpos hneg; linarith
    rw [hz] at habs
    norm_num at habs
  · exact ⟨fun _ => rfl, by norm_num, fun hc => ⟨le_refl _, hc⟩,
      fun hc => ⟨hc, le_refl _⟩, trivial⟩
  · exact ⟨fun _ => rfl, by norm_num, fun hc => ⟨le_refl _, hc⟩,
      fun hc => ⟨hc, le_refl _⟩, trivial⟩

/-- Witness for claim C6 at a concrete input. -/
theorem claim6_ramp_wit :
    ((4 : ℚ) ≠ 0) ∧
    ((10000 : Int) - 0 < 15000 →
       (applySpeedRamping 3 ⟨4, 4, 0⟩ 10000).2.currentSpeed = 4) := by
  exact ⟨by norm_num, (claim6_ramp 3 ⟨4, 4, 0⟩ 10000 (by norm_num)).1⟩

-- ================= CLAIM C4 (runtime enforcer) =================

/-- enforceOne on tower 1 leaves every tower-2 and tower-3 output and
timer unchanged. -/
theorem enforceOne_frame_one (d : ℚ) (s : CtState) (r : ControlResult) (now : Int) :
    (enforceOne d 1 s r now).1.vfdEnable.b = r.vfdEnable.b ∧
    (enforceOne d 1 s r now).1.fanSpeed.b = r.fanSpeed.b ∧
    (enforceOne d 1 s r now).1.isoOpen.b = r.isoOpen.b ∧
    (enforceOne d 1 s r now).1.isoClose.b = r.isoClose.b ∧
    (enforceOne d 1 s r now).2.towers.timers.b = s.towers.timers.b ∧
    (enforceOne d 1 s r now).1.vfdEnable.c = r.vfdEnable.c ∧
    (enforceOne d 1 s r now).1.fanSpeed.c = r.fanSpeed.c ∧
    (enforceOne d 1 s r now).1.isoOpen.c = r.isoOpen.c ∧
    (enforceOne d 1 s r now).1.isoClose.c = r.isoClose.c ∧
    (enforceOne d 1 s r now).2.towers.timers.c = s.towers.timers.c := by
  simp only [enforceOne, ControlResult.setEnable, ControlResult.setSpeed,
    ControlResult.setIsoOpen, ControlResult.setIsoClose, Tri.get, Tri.set]
  norm_num
  split_ifs <;> simp

theorem enforceOne_frame_two (d : ℚ) (s : CtState) (r : ControlResult) (now : Int) :
    (enforceOne d 2 s r now).1.vfdEnable.a = r.vfdEnable.a ∧
    (enforceOne d 2 s r now).1.fanSpeed.a = r.fanSpeed.a ∧
    (enforceOne d 2 s r now).1.isoOpen.a = r.isoOpen.a ∧
    (enforceOne d 2 s r now).1.isoClose.a = r.isoClose.a ∧
    (enforceOne d 2 s r now).2.towers.timers.a = s.towers.timers.a ∧
    (enforceOne d 2 s r now).1.vfdEnable.c = r.vfdEnable.c ∧
    (enforceOne d 2 s r now).1.fanSpeed.c = r.fanSpeed.c ∧
    (enforceOne d 2 s r now).1.isoOpen.c = r.isoOpen.c ∧
    (enforceOne d 2 s r now).1.isoClose.c = r.isoClose.c ∧
    (enforceOne d 2 s r now).2.towers.timers.c = s.towers.timers.c := by
  simp only [enforceOne, ControlResult.setEnable, ControlResult.setSpeed,
    ControlResult.setIsoOpen, ControlResult.setIsoClose, Tri.get, Tri.set]
  norm_num
  split_ifs <;> simp

theorem enforceOne_frame_three (d : ℚ) (s : CtState) (r : ControlResult) (now : Int) :
    (enforceOne d 3 s r now).1.vfdEnable.a = r.vfdEnable.a ∧
    (enforceOne d 3 s r now).1.fanSpeed.a = r.fanSpeed.a ∧
    (enforceOne d 3 s r now).1.isoOpen.a = r.isoOpen.a ∧
    (enforceOne d 3 s r now).1.isoClose.a = r.isoClose.a ∧
    (enforceOne d 3 s r now).2.towers.timers.a = s.towers.timers.a ∧
    (enforceOne d 3 s r now).1.vfdEnable.b = r.vfdEnable.b ∧
    (enforceOne d 3 s r now).1.fanSpeed.b = r.fanSpeed.b ∧
    (enforceOne d 3 s r now).1.isoOpen.b = r.isoOpen.b ∧
    (enforceOne d 3 s r now).1.isoClose.b = r.isoClose.b ∧
    (enforceOne d 3 s r now).2.towers.timers.b = s.towers.timers.b := by
  simp only [enforceOne, ControlResult.setEnable, ControlResult.setSpeed,
    ControlResult.setIsoOpen, ControlResult.setIsoClose, Tri.get, Tri.set]
  norm_num
  split_ifs <;> simp

/-- The runtime-enforcer outcome for tower 1 when it has a truthy start
time and the commander left it disabled. -/
theorem enforceOne_self_one (d : ℚ) (s : CtState) (r : ControlResult) (now : Int)
    (hset : jsSet s.towers.timers.a.startTime = true)
    (hen : r.vfdEnable.a = false) :
    (now - s.towers.timers.a.startTime.getD 0 < MINIMUM_RUNTIME_MS ∨ ¬(d < -10) →
       (enforceOne d 1 s r now).1.vfdEnable.a = true ∧
       (enforceOne d 1 s r now).1.fanSpeed.a = VFD_MIN_SPEED ∧
       (enforceOne d 1 s r now).1.isoOpen.a = true ∧
       (enforceOne d 1 s r now).1.isoClose.a = false ∧
       (enforceOne d 1 s r now).2.towers.timers.a = s.towers.timers.a) ∧
    (MINIMUM_RUNTIME_MS ≤ now - s.towers.timers.a.startTime.getD 0 → d < -10 →
       (enforceOne d 1 s r now).2.towers.timers.a = ⟨none, some now⟩ ∧
       (enforceOne d 1 s r now).1.vfdEnable.a = false) := by
  simp only [enforceOne, ControlResult.setEnable, ControlResult.setSpeed,
    ControlResult.setIsoOpen, ControlResult.setIsoClose, Tri.get, Tri.set]
  norm_num
  rw [if_pos ⟨hset, hen⟩]
  split_ifs with h1 h2 <;> constructor <;> simp_all

theorem enforceOne_self_two (d : ℚ) (s : CtState) (r : ControlResult) (now : Int)
    (hset : jsSet s.towers.timers.b.startTime = true)
    (hen : r.vfdEnable.b = false) :
    (now - s.towers.timers.b.startTime.getD 0 < MINIMUM_RUNTIME_MS ∨ ¬(d < -10) →
       (enforceOne d 2 s r now).1.vfdEnable.b = true ∧
       (enforceOne d 2 s r now).1.fanSpeed.b = VFD_MIN_SPEED ∧
       (enforceOne d 2 s r now).1.isoOpen.b = true ∧
       (enforceOne d 2 s r now).1.isoClose.b = false ∧
       (enforceOne d 2 s r now).2.towers.timers.b = s.towers.timers.b) ∧
    (MINIMUM_RUNTIME_MS ≤ now - s.towers.timers.b.startTime.getD 0 → d < -10 →
       (enforceOne d 2 s r now).2.towers.timers.b = ⟨none, some now⟩ ∧
       (enforceOne d 2 s r now).1.vfdEnable.b = false) := by
  simp only [enforceOne, ControlResult.setEnable, ControlResult.setSpeed,
    ControlResult.setIsoOpen, ControlResult.setIsoClose, Tri.get, Tri.set]
  norm_num
  rw [if_pos ⟨hset, hen⟩]
  split_ifs with h1 h2 <;> constructor <;> simp_all

theorem enforceOne_self_three (d : ℚ) (s : CtState) (r : ControlResult) (now : Int)
    (hset : jsSet s.towers.timers.c.startTime = true)
    (hen : r.vfdEnable.c = false) :
    (now - s.towers.timers.c.startTime.getD 0 < MINIMUM_RUNTIME_MS ∨ ¬(d < -10) →
       (enforceOne d 3 s r now).1.vfdEnable.c = true ∧
       (enforceOne d 3 s r now).1.fanSpeed.c = VFD_MIN_SPEED ∧
       (enforceOne d 3 s r now).1.isoOpen.c = true ∧
       (enforceOne d 3 s r now).1.isoClose.c = false ∧
       (enforceOne d 3 s r now).2.towers.timers.c = s.towers.timers.c) ∧
    (MINIMUM_RUNTIME_MS ≤ now - s.towers.timers.c.startTime.getD 0 → d < -10 →
       (enforceOne d 3 s r now).2.towers.timers.c = ⟨none, some now⟩ ∧
       (enforceOne d 3 s r now).1.vfdEnable.c = false) := by
  simp only [enforceOne, ControlResult.setEnable, ControlResult.setSpeed,
    ControlResult.setIsoOpen, ControlResult.setIsoClose, Tri.get, Tri.set]
  norm_num
  rw [if_pos ⟨hset, hen⟩]
  split_ifs with h1 h2 <;> constructor <;> simp_all

/-- Claim C4 (amended): a tower with a truthy start time that the
commander left disabled is forced on (enable, minimum speed, valve open,
close cleared) while its runtime is under 420 s; past 420 s the engine
clears the start time and writes stop time = now only when deltaT is
below -10 degF (the HP-supply-below-65 disjunct of the claim is not
checked here), and otherwise forces the tower on with its start time
retained rather than cleared. -/
theorem claim4_enforce (sensor : SensorData) (s : CtState) (r : ControlResult)
    (now : Int) (i : Nat) (hi : i = 1 ∨ i = 2 ∨ i = 3)
    (hset : jsSet (s.towers.timers.get i).startTime = true)
    (hen : r.vfdEnable.get i = false) :
    (now - (s.towers.timers.get i).startTime.getD 0 < MINIMUM_RUNTIME_MS →
       (enforceMinimumRuntimes sensor s r now).1.vfdEnable.get i = true ∧
       (enforceMinimumRuntimes sensor s r now).1.fanSpeed.get i = VFD_MIN_SPEED ∧
       (enforceMinimumRuntimes sensor s r now).1.isoOpen.get i = true ∧
       (enforceMinimumRuntimes sensor s r now).1.isoClose.get i = false ∧
       (enforceMinimumRuntimes sensor s r now).2.towers.timers.get i = s.towers.timers.get i) ∧
    (MINIMUM_RUNTIME_MS ≤ now - (s.towers.timers.get i).startTime.getD 0 →
       sensor.temps.hpSupply - sensor.targetSetpoint < -10 →
       (enforceMinimumRuntimes sensor s r now).2.towers.timers.get i = ⟨none, some now⟩ ∧
       (enforceMinimumRuntimes sensor s r now).1.vfdEnable.get i = false) ∧
    (MINIMUM_RUNTIME_MS ≤ now - (s.towers.timers.get i).startTime.getD 0 →
       ¬(sensor.temps.hpSupply - sensor.targetSetpoint < -10) →
       (enforceMinimumRuntimes sensor s r now).1.vfdEnable.get i = true ∧
       (enforceMinimumRuntimes sensor s r now).1.fanSpeed.get i = VFD_MIN_SPEED ∧
       (enforceMinimumRuntimes sensor s r now).1.isoOpen.get i = true ∧
       (enforceMinimumRuntimes sensor s r now).1.isoClose.get i = false ∧
       (enforceMinimumRuntimes sensor s r now).2.towers.timers.get i = s.towers.timers.get i) := by
  rcases hi with hi | hi | hi <;> subst hi <;>
    simp only [enforceMinimumRuntimes, Tri.get_one, Tri.get_two, Tri.get_three]
      at hset hen ⊢
  · -- tower 1: own pass first, then frame through towers 2 and 3
    obtain ⟨hOn, hOff⟩ := enforceOne_self_one
      (sensor.temps.hpSupply - sensor.targetSetpoint) s r now hset hen
    obtain ⟨f2e, f2s, f2o, f2c, f2t, -⟩ := enforceOne_frame_two
      (sensor.temps.hpSupply - sensor.targetSetpoint)
      (enforceOne (sensor.temps.hpSupply - sensor.targetSetpoint) 1 s r now).2
      (enforceOne (sensor.temps.hpSupply - sensor.targetSetpoint) 1 s r now).1 now
    obtain ⟨f3e, f3s, f3o, f3c, f3t, -⟩ := enforceOne_frame_three
      (sensor.temps.hpSupply - sensor.targetSetpoint) _ _ now
    refine ⟨fun h => ?_, fun h hd => ?_, fun h hd => ?_⟩
    · obtain ⟨q1, q2, q3, q4, q5⟩ := hOn (Or.inl h)
      exact ⟨by rw [f3e, f2e, q1], by rw [f3s, f2s, q2], by rw [f3o, f2o, q3],
        by rw [f3c, f2c, q4], by rw [f3t, f2t, q5]⟩
    · obtain ⟨q1, q2⟩ := hOff h hd
      exact ⟨by rw [f3t, f2t, q1], by rw [f3e, f2e, q2]⟩
    · obtain ⟨q1, q2, q3, q4, q5⟩ := hOn (Or.inr hd)
      exact ⟨by rw [f3e, f2e, q1], by rw [f3s, f2s, q2], by rw [f3o, f2o, q3],
        by rw [f3c, f2c, q4], by rw [f3t, f2t, q5]⟩
  · -- tower 2: frame through tower 1, own pass, frame through tower 3
    obtain ⟨f1e, f1s, f1o, f1c, f1t, -⟩ := enforceOne_frame_one
      (sensor.temps.hpSupply - sensor.targetSetpoint) s r now
    obtain ⟨hOn, hOff⟩ := enforceOne_self_two
      (sensor.temps.hpSupply - sensor.targetSetpoint)
      (enforceOne (sensor.temps.hpSupply - sensor.targetSetpoint) 1 s r now).2
      (enforceOne (sensor.temps.hpSupply - sensor.targetSetpoint) 1 s r now).1 now
      (by rw [f1t]; exact hset) (by rw [f1e]; exact hen)
    rw [f1t] at hOn hOff
    obtain ⟨-, -, -, -, -, f3e, f3s, f3o, f3c, f3t⟩ := enforceOne_frame_three
      (sensor.temps.hpSupply - sensor.targetSetpoint) _ _ now
    refine ⟨fun h => ?_, fun h hd => ?_, fun h hd => ?_⟩
    · obtain ⟨q1, q2, q3, q4, q5⟩ := hOn (Or.inl h)
      exact ⟨by rw [f3e, q1], by rw [f3s, q2], by rw [f3o, q3],
        by rw [f3c, q4], by rw [f3t, q5]⟩
    · obtain ⟨q1, q2⟩ := hOff h hd
      exact ⟨by rw [f3t, q1], by rw [f3e, q2]⟩
    · obtain ⟨q1, q2, q3, q4, q5⟩ := hOn (Or.inr hd)
      exact ⟨by rw [f3e, q1], by rw [f3s, q2], by rw [f3o, q3],
        by rw [f3c, q4], by rw [f3t, q5]⟩
  · -- tower 3: frame through towers 1 and 2, then own pass
    obtain ⟨-, -, -, -, -, f1e, f1s, f1o, f1c, f1t⟩ := enforceOne_frame_one
      (sensor.temps.hpSupply - sensor.targetSetpoint) s r now
    obtain ⟨-, -, -, -, -, f2e, f2s, f2o, f2c, f2t⟩ := enforceOne_frame_two
      (sensor.temps.hpSupply - sensor.targetSetpoint)
      (enforceOne (sensor.temps.hpSupply - sensor.targetSetpoint) 1 s r now).2
      (enforceOne (sensor.temps.hpSupply - sensor.targetSetpoint) 1 s r now).1 now
    obtain ⟨hOn, hOff⟩ := enforceOne_self_three
      (sensor.temps.hpSupply - sensor.targetSetpoint) _ _ now
      (by rw [f2t, f1t]; exact hset) (by rw [f2e, f1e]; exact hen)
    rw [f2t, f1t] at hOn hOff
    refine ⟨fun h => ?_, fun h hd => ?_, fun h hd => ?_⟩
    · exact hOn (Or.inl h)
    · exact hOff h hd
    · exact hOn (Or.inr hd)


def c4sensorA : SensorData :=
  { vfdCurrents := ⟨0, 0, 0, 0, 0, 0⟩
    pumpCurrents := ⟨0, 0, 0⟩
    temps := ⟨80, 85, 85, 60, 75⟩
    vibration := ⟨0, 0, 0⟩
    targetSetpoint := 68 }

def c4sensorB : SensorData :=
  { vfdCurrents := ⟨0, 0, 0, 0, 0, 0⟩
    pumpCurrents := ⟨0, 0, 0⟩
    temps := ⟨80, 85, 85, 70, 75⟩
    vibration := ⟨0, 0, 0⟩
    targetSetpoint := 72 }

def c4state : CtState :=
  { mkInitialState 0 with
      towers := { (mkInitialState 0).towers with
        timers := ⟨⟨some 100000, none⟩, ⟨none, none⟩, ⟨none, none⟩⟩ } }

/-- Claim C4 counterexample: with HP supply 60 degF (below 65) and
deltaT = -8 after 900 s of runtime, the claim requires the start time
cleared and a stop time written, but the engine forces the tower on and
leaves the timer untouched; and in the continue branch (HP supply 70,
deltaT = -2) the claim requires the start time cleared, but it is
retained. -/
theorem claim4_cex :
    (c4sensorA.temps.hpSupply < 65 ∧
     ¬(c4sensorA.temps.hpSupply - c4sensorA.targetSetpoint < -10) ∧
     MINIMUM_RUNTIME_MS ≤ (1000000 : Int) - 100000 ∧
     (enforceMinimumRuntimes c4sensorA c4state
        (initControlResult c4sensorA 1000000) 1000000).1.vfdEnable.a = true ∧
     (enforceMinimumRuntimes c4sensorA c4state
        (initControlResult c4sensorA 1000000) 1000000).2.towers.timers.a =
          ⟨some 100000, none⟩) ∧
    ((65 : ℚ) ≤ c4sensorB.temps.hpSupply ∧
     ¬(c4sensorB.temps.hpSupply - c4sensorB.targetSetpoint < -10) ∧
     (enforceMinimumRuntimes c4sensorB c4state
        (initControlResult c4sensorB 1000000) 1000000).1.vfdEnable.a = true ∧
     (enforceMinimumRuntimes c4sensorB c4state
        (initControlResult c4sensorB 1000000) 1000000).2.towers.timers.a =
          ⟨some 100000, none⟩) := by
  constructor <;>
    refine ⟨by norm_num [c4sensorA, c4sensorB], by norm_num [c4sensorA, c4sensorB], ?_⟩ <;>
    norm_num [c4sensorA, c4sensorB, c4state, mkInitialState, initControlResult, Tri.const,
      enforceMinimumRuntimes, enforceOne, Tri.get, Tri.set, jsSet,
      ControlResult.setEnable, ControlResult.setSpeed, ControlResult.setIsoOpen,
      ControlResult.setIsoClose, MINIMUM_RUNTIME_MS, VFD_MIN_SPEED]

/-- Witness for claim C4 at a concrete input. -/
theorem claim4_enforce_wit :
    jsSet ((c4state.towers.timers.get 1).startTime) = true ∧
    ((initControlResult c4sensorB 200000).vfdEnable.get 1 = false) ∧
    ((200000 : Int) - (c4state.towers.timers.get 1).startTime.getD 0 < MINIMUM_RUNTIME_MS) ∧
    ((enforceMinimumRuntimes c4sensorB c4state
        (initControlResult c4sensorB 200000) 200000).1.vfdEnable.get 1 = true ∧
     (enforceMinimumRuntimes c4sensorB c4state
        (initControlResult c4sensorB 200000) 200000).1.fanSpeed.get 1 = VFD_MIN_SPEED ∧
     (enforceMinimumRuntimes c4sensorB c4state
        (initControlResult c4sensorB 200000) 200000).1.isoOpen.get 1 = true ∧
     (enforceMinimumRuntimes c4sensorB c4state
        (initControlResult c4sensorB 200000) 200000).1.isoClose.get 1 = false ∧
     (enforceMinimumRuntimes c4sensorB c4state
        (initControlResult c4sensorB 200000) 200000).2.towers.timers.get 1 =
       c4state.towers.timers.get 1) := by
  have h1 : jsSet ((c4state.towers.timers.get 1).startTime) = true := by
    norm_num [c4state, mkInitialState, Tri.const, Tri.get, jsSet]
  have h2 : (initControlResult c4sensorB 200000).vfdEnable.get 1 = false := by
    norm_num [initControlResult, Tri.const, Tri.get]
  have h3 : (200000 : Int) - (c4state.towers.timers.get 1).startTime.getD 0 <
      MINIMUM_RUNTIME_MS := by
    norm_num [c4state, mkInitialState, Tri.const, Tri.get, MINIMUM_RUNTIME_MS]
  exact ⟨h1, h2, h3,
    (claim4_enforce c4sensorB c4state (initControlResult c4sensorB 200000) 200000 1
      (Or.inl rfl) h1 h2).1 h3⟩

-- ============ Claim C2 infrastructure ============

/-- Speed floor and timer-frame invariant threaded through the commander
fold: an enabled tower has speed at least the VFD minimum, and a
disabled tower still carries its pre-fold timer. -/
def FoldInv (T : Tri Timer) (rs : ControlResult × CtState) : Prop :=
  (rs.1.vfdEnable.a = true → VFD_MIN_SPEED ≤ rs.1.fanSpeed.a) ∧
  (rs.1.vfdEnable.b = true → VFD_MIN_SPEED ≤ rs.1.fanSpeed.b) ∧
  (rs.1.vfdEnable.c = true → VFD_MIN_SPEED ≤ rs.1.fanSpeed.c) ∧
  (rs.1.vfdEnable.a = false → rs.2.towers.timers.a = T.a) ∧
  (rs.1.vfdEnable.b = false → rs.2.towers.timers.b = T.b) ∧
  (rs.1.vfdEnable.c = false → rs.2.towers.timers.c = T.c)

theorem List.foldl_inv {α β : Type} (P : α → Prop) (f : α → β → α)
    (h : ∀ a b, P a → P (f a b)) :
    ∀ (l : List β) (a : α), P a → P (l.foldl f a) := by
  intro l
  induction l with
  | nil => intro a ha; exact ha
  | cons x xs ih => intro a ha; exact ih (f a x) (h a x ha)

theorem calculateTowerSpeed_ge (pid? : Option PidFn) (n : Nat) (demand : ℚ)
    (sensor : SensorData) (s : CtState) (now : Int) :
    VFD_MIN_SPEED ≤ (calculateTowerSpeed pid? n demand sensor s now).1 := by
  simp only [calculateTowerSpeed]
  split_ifs <;> try exact le_refl _
  exact le_max_left _ _

theorem calculateTowerSpeed_timers (pid? : Option PidFn) (n : Nat) (demand : ℚ)
    (sensor : SensorData) (s : CtState) (now : Int) :
    (calculateTowerSpeed pid? n demand sensor s now).2.towers.timers =
      s.towers.timers := by
  simp only [calculateTowerSpeed]
  split_ifs <;> rfl

theorem enableTower_foldinv (pid? : Option PidFn) (n : Nat) (demand : ℚ)
    (sensor : SensorData) (T : Tri Timer) (rs : ControlResult × CtState) (now : Int)
    (hinv : FoldInv T rs) :
    FoldInv T (enableTower pid? n demand sensor rs.2 rs.1 now) := by
  obtain ⟨sa, sb, sc, ta, tb, tc⟩ := hinv
  have hts := calculateTowerSpeed_timers pid? n demand sensor
  have hge := calculateTowerSpeed_ge pid? n demand sensor
  by_cases h1 : n = 1
  · subst h1
    refine ⟨?_, ?_, ?_, ?_, ?_, ?_⟩ <;>
      simp only [enableTower, ControlResult.setEnable, ControlResult.setSpeed,
        ControlResult.setIsoOpen, ControlResult.setIsoClose, Tri.get, Tri.set] <;>
      norm_num <;>
      first
        | assumption
        | (split_ifs <;> simp_all [hts, hge, Tri.set])
        | simp_all [hts, hge, Tri.set]
  · by_cases h2 : n = 2
    · subst h2
      refine ⟨?_, ?_, ?_, ?_, ?_, ?_⟩ <;>
        simp only [enableTower, ControlResult.setEnable, ControlResult.setSpeed,
          ControlResult.setIsoOpen, ControlResult.setIsoClose, Tri.get, Tri.set] <;>
        norm_num <;>
        first
          | assumption
          | (split_ifs <;> simp_all [hts, hge, Tri.set])
          | simp_all [hts, hge, Tri.set]
    · refine ⟨?_, ?_, ?_, ?_, ?_, ?_⟩ <;>
        simp only [enableTower, ControlResult.setEnable, ControlResult.setSpeed,
          ControlResult.setIsoOpen, ControlResult.setIsoClose, Tri.get, Tri.set,
          if_neg h1, if_neg h2] <;>
        first
          | assumption
          | (split_ifs <;> simp_all [hts, hge, Tri.set, if_neg h1, if_neg h2])
          | simp_all [hts, hge, Tri.set, if_neg h1, if_neg h2]


/-- The per-tower invariant the claim needs at the end of the tick: a
tower whose carried start time is younger than the minimum runtime is
commanded on, and commanded-on towers run at or above minimum speed. -/
def TickInv (now : Int) (r : ControlResult) (s : CtState) : Prop :=
  (∀ t, s.towers.timers.a.startTime = some t → now - t < MINIMUM_RUNTIME_MS →
     r.vfdEnable.a = true) ∧
  (r.vfdEnable.a = true → VFD_MIN_SPEED ≤ r.fanSpeed.a) ∧
  (∀ t, s.towers.timers.b.startTime = some t → now - t < MINIMUM_RUNTIME_MS →
     r.vfdEnable.b = true) ∧
  (r.vfdEnable.b = true → VFD_MIN_SPEED ≤ r.fanSpeed.b) ∧
  (∀ t, s.towers.timers.c.startTime = some t → now - t < MINIMUM_RUNTIME_MS →
     r.vfdEnable.c = true) ∧
  (r.vfdEnable.c = true → VFD_MIN_SPEED ≤ r.fanSpeed.c)

/-- Timers that carry genuine timestamps: a start time is never the
JavaScript-falsy value 0. -/
def WFTimers (T : Tri Timer) : Prop :=
  T.a.startTime ≠ some 0 ∧ T.b.startTime ≠ some 0 ∧ T.c.startTime ≠ some 0

theorem jsSet_false_none {v : Option Int} (hjs : jsSet v = false)
    (hwf : v ≠ some 0) : v = none := by
  cases v with
  | none => rfl
  | some x =>
      exfalso
      simp only [jsSet, decide_eq_false_iff_not, ne_eq, Decidable.not_not] at hjs
      exact hwf (by rw [hjs])

theorem enforceOne_skip_one (d : ℚ) (s : CtState) (r : ControlResult) (now : Int)
    (h : ¬(jsSet s.towers.timers.a.startTime = true ∧ r.vfdEnable.a = false)) :
    enforceOne d 1 s r now = (r, s) := by
  simp only [enforceOne, Tri.get_one]
  rw [if_neg h]

theorem enforceOne_skip_two (d : ℚ) (s : CtState) (r : ControlResult) (now : Int)
    (h : ¬(jsSet s.towers.timers.b.startTime = true ∧ r.vfdEnable.b = false)) :
    enforceOne d 2 s r now = (r, s) := by
  simp only [enforceOne, Tri.get_two]
  rw [if_neg h]

theorem enforceOne_skip_three (d : ℚ) (s : CtState) (r : ControlResult) (now : Int)
    (h : ¬(jsSet s.towers.timers.c.startTime = true ∧ r.vfdEnable.c = false)) :
    enforceOne d 3 s r now = (r, s) := by
  simp only [enforceOne, Tri.get_three]
  rw [if_neg h]



theorem enforce_tickinv (sensor : SensorData) (T : Tri Timer) (r : ControlResult)
    (s : CtState) (now : Int) (hwf : WFTimers T)
    (hinv : FoldInv T (r, s)) :
    TickInv now (enforceMinimumRuntimes sensor s r now).1
      (enforceMinimumRuntimes sensor s r now).2 := by
  obtain ⟨sa, sb, sc, ta, tb, tc⟩ := hinv
  obtain ⟨wa, wb, wc⟩ := hwf
  simp only [TickInv, enforceMinimumRuntimes]
  set d := sensor.temps.hpSupply - sensor.targetSetpoint with hd
  set E1 := enforceOne d 1 s r now with hE1
  set E2 := enforceOne d 2 E1.2 E1.1 now with hE2
  set E3 := enforceOne d 3 E2.2 E2.1 now with hE3
  obtain ⟨f2e, f2s, f2o, f2c, f2t, -⟩ := enforceOne_frame_two d E1.2 E1.1 now
  obtain ⟨f3e, f3s, f3o, f3c, f3t, f3e', f3s', f3o', f3c', f3t'⟩ :=
    enforceOne_frame_three d E2.2 E2.1 now
  obtain ⟨f1e, f1s, f1o, f1c, f1t, f1e', f1s', f1o', f1c', f1t'⟩ :=
    enforceOne_frame_one d s r now
  obtain ⟨-, -, -, -, -, g2e, g2s, g2o, g2c, g2t⟩ := enforceOne_frame_two d E1.2 E1.1 now
  rw [← hE2] at f2e f2s f2o f2c f2t g2e g2s g2o g2c g2t
  rw [← hE3] at f3e f3s f3o f3c f3t f3e' f3s' f3o' f3c' f3t'
  rw [← hE1] at f1e f1s f1o f1c f1t f1e' f1s' f1o' f1c' f1t'
  refine ⟨?_, ?_, ?_, ?_, ?_, ?_⟩

  · -- tower 1: young carried start forces the enable on
    intro t ht hyoung
    rw [f3t, f2t] at ht
    rw [f3e, f2e]
    cases he : r.vfdEnable.a with
    | true =>
        have hskip := enforceOne_skip_one d s r now
          (fun hc => by rw [he] at hc; exact absurd hc.2 (by simp))
        rw [← hE1] at hskip
        rw [hskip]
        exact he
    | false =>
        have hta := ta he
        cases hjs : jsSet T.a.startTime with
        | false =>
            have hnone := jsSet_false_none hjs wa
            have hskip := enforceOne_skip_one d s r now
              (fun hc => by rw [hta, hjs] at hc; exact absurd hc.1 (by simp))
            rw [← hE1] at hskip
            rw [hskip] at ht
            rw [hta, hnone] at ht
            exact absurd ht (by simp)
        | true =>
            have hset : jsSet s.towers.timers.a.startTime = true := by
              rw [hta]; exact hjs
            obtain ⟨hOn, hOff⟩ := enforceOne_self_one d s r now hset he
            rw [← hE1] at hOn hOff
            by_cases hy : now - s.towers.timers.a.startTime.getD 0 < MINIMUM_RUNTIME_MS
            · exact (hOn (Or.inl hy)).1
            · by_cases hcold : d < -10
              · obtain ⟨qt, -⟩ := hOff (le_of_not_lt hy) hcold
                rw [qt] at ht
                exact absurd ht (by simp)
              · exact (hOn (Or.inr hcold)).1
  · -- tower 1: commanded-on towers hold at least the minimum speed
    intro hen
    rw [f3s, f2s]
    rw [f3e, f2e] at hen
    cases he : r.vfdEnable.a with
    | true =>
        have hskip := enforceOne_skip_one d s r now
          (fun hc => by rw [he] at hc; exact absurd hc.2 (by simp))
        rw [← hE1] at hskip
        rw [hskip]
        exact sa he
    | false =>
        have hta := ta he
        cases hjs : jsSet T.a.startTime with
        | false =>
            have hskip := enforceOne_skip_one d s r now
              (fun hc => by rw [hta, hjs] at hc; exact absurd hc.1 (by simp))
            rw [← hE1] at hskip
            rw [hskip] at hen
            rw [he] at hen
            exact absurd hen (by simp)
        | true =>
            have hset : jsSet s.towers.timers.a.startTime = true := by
              rw [hta]; exact hjs
            obtain ⟨hOn, hOff⟩ := enforceOne_self_one d s r now hset he
            rw [← hE1] at hOn hOff
            by_cases hy : now - s.towers.timers.a.startTime.getD 0 < MINIMUM_RUNTIME_MS
            · rw [(hOn (Or.inl hy)).2.1]
            · by_cases hcold : d < -10
              · obtain ⟨-, qe⟩ := hOff (le_of_not_lt hy) hcold
                rw [qe] at hen
                exact absurd hen (by simp)
              · rw [(hOn (Or.inr hcold)).2.1]
  · -- tower 2: young carried start forces the enable on
    intro t ht hyoung
    rw [f3t'] at ht
    rw [f3e']
    cases he : r.vfdEnable.b with
    | true =>
        have he1 : E1.1.vfdEnable.b = true := by rw [f1e]; exact he
        have hskip := enforceOne_skip_two d E1.2 E1.1 now
          (fun hc => by rw [he1] at hc; exact absurd hc.2 (by simp))
        rw [← hE2] at hskip
        rw [hskip]
        exact he1
    | false =>
        have htb := tb he
        have ht1 : E1.2.towers.timers.b = T.b := by rw [f1t]; exact htb
        have he1 : E1.1.vfdEnable.b = false := by rw [f1e]; exact he
        cases hjs : jsSet T.b.startTime with
        | false =>
            have hnone := jsSet_false_none hjs wb
            have hskip := enforceOne_skip_two d E1.2 E1.1 now
              (fun hc => by rw [ht1, hjs] at hc; exact absurd hc.1 (by simp))
            rw [← hE2] at hskip
            rw [hskip] at ht
            rw [ht1, hnone] at ht
            exact absurd ht (by simp)
        | true =>
            obtain ⟨hOn, hOff⟩ := enforceOne_self_two d E1.2 E1.1 now
              (by rw [ht1]; exact hjs) he1
            rw [← hE2] at hOn hOff
            by_cases hy : now - E1.2.towers.timers.b.startTime.getD 0 <
                MINIMUM_RUNTIME_MS
            · exact (hOn (Or.inl hy)).1
            · by_cases hcold : d < -10
              · obtain ⟨qt, -⟩ := hOff (le_of_not_lt hy) hcold
                rw [qt] at ht
                exact absurd ht (by simp)
              · exact (hOn (Or.inr hcold)).1
  · -- tower 2: commanded-on towers hold at least the minimum speed
    intro hen
    rw [f3s']
    rw [f3e'] at hen
    cases he : r.vfdEnable.b with
    | true =>
        have he1 : E1.1.vfdEnable.b = true := by rw [f1e]; exact he
        have hskip := enforceOne_skip_two d E1.2 E1.1 now
          (fun hc => by rw [he1] at hc; exact absurd hc.2 (by simp))
        rw [← hE2] at hskip
        rw [hskip]
        rw [f1s]
        exact sb he
    | false =>
        have htb := tb he
        have ht1 : E1.2.towers.timers.b = T.b := by rw [f1t]; exact htb
        have he1 : E1.1.vfdEnable.b = false := by rw [f1e]; exact he
        cases hjs : jsSet T.b.startTime with
        | false =>
            have hskip := enforceOne_skip_two d E1.2 E1.1 now
              (fun hc => by rw [ht1, hjs] at hc; exact absurd hc.1 (by simp))
            rw [← hE2] at hskip
            rw [hskip] at hen
            rw [he1] at hen
            exact absurd hen (by simp)
        | true =>
            obtain ⟨hOn, hOff⟩ := enforceOne_self_two d E1.2 E1.1 now
              (by rw [ht1]; exact hjs) he1
            rw [← hE2] at hOn hOff
            by_cases hy : now - E1.2.towers.timers.b.startTime.getD 0 <
                MINIMUM_RUNTIME_MS
            · rw [(hOn (Or.inl hy)).2.1]
            · by_cases hcold : d < -10
              · obtain ⟨-, qe⟩ := hOff (le_of_not_lt hy) hcold
                rw [qe] at hen
                exact absurd hen (by simp)
              · rw [(hOn (Or.inr hcold)).2.1]
  · -- tower 3: young carried start forces the enable on
    intro t ht hyoung
    cases he : r.vfdEnable.c with
    | true =>
        have he2 : E2.1.vfdEnable.c = true := by
          rw [g2e, f1e']; exact he
        have hskip := enforceOne_skip_three d E2.2 E2.1 now
          (fun hc => by rw [he2] at hc; exact absurd hc.2 (by simp))
        rw [← hE3] at hskip
        rw [hskip]
        exact he2
    | false =>
        have htc := tc he
        have ht2 : E2.2.towers.timers.c = T.c := by
          rw [g2t, f1t']; exact htc
        have he2 : E2.1.vfdEnable.c = false := by
          rw [g2e, f1e']; exact he
        cases hjs : jsSet T.c.startTime with
        | false =>
            have hnone := jsSet_false_none hjs wc
            have hskip := enforceOne_skip_three d E2.2 E2.1 now
              (fun hc => by rw [ht2, hjs] at hc; exact absurd hc.1 (by simp))
            rw [← hE3] at hskip
            rw [hskip] at ht
            rw [ht2, hnone] at ht
            exact absurd ht (by simp)
        | true =>
            obtain ⟨hOn, hOff⟩ := enforceOne_self_three d E2.2 E2.1 now
              (by rw [ht2]; exact hjs) he2
            rw [← hE3] at hOn hOff
            by_cases hy : now - E2.2.towers.timers.c.startTime.getD 0 <
                MINIMUM_RUNTIME_MS
            · exact (hOn (Or.inl hy)).1
            · by_cases hcold : d < -10
              · obtain ⟨qt, -⟩ := hOff (le_of_not_lt hy) hcold
                rw [qt] at ht
                exact absurd ht (by simp)
              · exact (hOn (Or.inr hcold)).1
  · -- tower 3: commanded-on towers hold at least the minimum speed
    intro hen
    cases he : r.vfdEnable.c with
    | true =>
        have he2 : E2.1.vfdEnable.c = true := by
          rw [g2e, f1e']; exact he
        have hskip := enforceOne_skip_three d E2.2 E2.1 now
          (fun hc => by rw [he2] at hc; exact absurd hc.2 (by simp))
        rw [← hE3] at hskip
        rw [hskip]
        rw [g2s, f1s']
        exact sc he
    | false =>
        have htc := tc he
        have ht2 : E2.2.towers.timers.c = T.c := by
          rw [g2t, f1t']; exact htc
        have he2 : E2.1.vfdEnable.c = false := by
          rw [g2e, f1e']; exact he
        cases hjs : jsSet T.c.startTime with
        | false =>
            have hskip := enforceOne_skip_three d E2.2 E2.1 now
              (fun hc => by rw [ht2, hjs] at hc; exact absurd hc.1 (by simp))
            rw [← hE3] at hskip
            rw [hskip] at hen
            rw [he2] at hen
            exact absurd hen (by simp)
        | true =>
            obtain ⟨hOn, hOff⟩ := enforceOne_self_three d E2.2 E2.1 now
              (by rw [ht2]; exact hjs) he2
            rw [← hE3] at hOn hOff
            by_cases hy : now - E2.2.towers.timers.c.startTime.getD 0 <
                MINIMUM_RUNTIME_MS
            · rw [(hOn (Or.inl hy)).2.1]
            · by_cases hcold : d < -10
              · obtain ⟨-, qe⟩ := hOff (le_of_not_lt hy) hcold
                rw [qe] at hen
                exact absurd hen (by simp)
              · rw [(hOn (Or.inr hcold)).2.1]



theorem tickinv_transport (now : Int) (r r' : ControlResult) (s s' : CtState)
    (he : r'.vfdEnable = r.vfdEnable) (hs : r'.fanSpeed = r.fanSpeed)
    (ht : s'.towers.timers = s.towers.timers) (h : TickInv now r s) :
    TickInv now r' s' := by
  obtain ⟨h1, h2, h3, h4, h5, h6⟩ := h
  refine ⟨?_, ?_, ?_, ?_, ?_, ?_⟩
  · intro t htm hy; rw [ht] at htm; rw [he]; exact h1 t htm hy
  · intro hx; rw [he] at hx; rw [hs]; exact h2 hx
  · intro t htm hy; rw [ht] at htm; rw [he]; exact h3 t htm hy
  · intro hx; rw [he] at hx; rw [hs]; exact h4 hx
  · intro t htm hy; rw [ht] at htm; rw [he]; exact h5 t htm hy
  · intro hx; rw [he] at hx; rw [hs]; exact h6 hx

theorem performLeadTowerRotation_timers (s : CtState) (now : Int) :
    (performLeadTowerRotation s now).towers.timers = s.towers.timers := by
  simp only [performLeadTowerRotation]
  split_ifs <;> rfl

theorem controlPumps_towers (sensor : SensorData) (s : CtState) (r : ControlResult)
    (now : Int) :
    (controlPumps sensor s r now).2.towers = s.towers := by
  simp only [controlPumps]
  split_ifs <;> rfl

theorem applyFallbackValveControl_frame (od : ℚ) (r : ControlResult) :
    (applyFallbackValveControl od r).vfdEnable = r.vfdEnable ∧
    (applyFallbackValveControl od r).fanSpeed = r.fanSpeed := by
  simp only [applyFallbackValveControl]
  split_ifs <;> exact ⟨rfl, rfl⟩

theorem controlValves_frame (pid? : Option PidFn) (sensor : SensorData)
    (s : CtState) (r : ControlResult) (ui : UICommands) :
    (controlValves pid? sensor s r ui).1.vfdEnable = r.vfdEnable ∧
    (controlValves pid? sensor s r ui).1.fanSpeed = r.fanSpeed ∧
    (controlValves pid? sensor s r ui).2.towers = s.towers := by
  simp only [controlValves]
  cases htv : ui.temperingValvePosition with
  | some v => cases hbv : ui.bypassValvePosition <;> exact ⟨rfl, rfl, rfl⟩
  | none =>
      cases hbv : ui.bypassValvePosition <;>
        dsimp only <;>
        rcases pid? with - | pid <;>
        dsimp only <;>
        simp only [applyFallbackValveControl] <;>
        split_ifs <;>
        first
          | exact ⟨rfl, rfl, rfl⟩
          | (split <;> (try split_ifs) <;> exact ⟨rfl, rfl, rfl⟩)

theorem controlHeaters_frame (od : ℚ) (r : ControlResult) :
    (controlHeaters od r).vfdEnable = r.vfdEnable ∧
    (controlHeaters od r).fanSpeed = r.fanSpeed := by
  simp only [controlHeaters]
  split_ifs <;> exact ⟨rfl, rfl⟩


-- ================= CLAIM C2: SUPPORTING INVARIANT LEMMAS =================

/-- Commanded-on towers run at or above the minimum VFD speed. -/
def SpeedsOK (e : Tri Bool) (f : Tri ℚ) : Prop :=
  (e.a = true → VFD_MIN_SPEED ≤ f.a) ∧
  (e.b = true → VFD_MIN_SPEED ≤ f.b) ∧
  (e.c = true → VFD_MIN_SPEED ≤ f.c)

theorem tickinv_speeds (now : Int) (r : ControlResult) (s : CtState)
    (h : TickInv now r s) : SpeedsOK r.vfdEnable r.fanSpeed :=
  ⟨h.2.1, h.2.2.2.1, h.2.2.2.2.2⟩

theorem Tri.set_a {α : Type} (t : Tri α) (i : Nat) (x : α) :
    (t.set i x).a = x ∨ (t.set i x).a = t.a := by
  simp only [Tri.set]
  split_ifs <;> simp

theorem Tri.set_b {α : Type} (t : Tri α) (i : Nat) (x : α) :
    (t.set i x).b = x ∨ (t.set i x).b = t.b := by
  simp only [Tri.set]
  split_ifs <;> simp

theorem Tri.set_c {α : Type} (t : Tri α) (i : Nat) (x : α) :
    (t.set i x).c = x ∨ (t.set i x).c = t.c := by
  simp only [Tri.set]
  split_ifs <;> simp

theorem Tri.set_eq_self {α : Type} (t : Tri α) (i : Nat) (x : α)
    (h : t.get i = x) : t.set i x = t := by
  cases t with
  | mk a b c =>
      simp only [Tri.get] at h
      simp only [Tri.set]
      split_ifs at h ⊢ <;> simp_all

theorem clampWarnSpeed_enable (n : Nat) (c : ℚ) (r : ControlResult) :
    (clampWarnSpeed n c r).vfdEnable = r.vfdEnable := by
  simp only [clampWarnSpeed, ControlResult.setSpeed]
  split_ifs <;> rfl

theorem clampWarnSpeed_fanSpeed (n : Nat) (c : ℚ) (r : ControlResult) :
    ((clampWarnSpeed n c r).fanSpeed.a = VFD_LOW_SPEED ∨
      (clampWarnSpeed n c r).fanSpeed.a = r.fanSpeed.a) ∧
    ((clampWarnSpeed n c r).fanSpeed.b = VFD_LOW_SPEED ∨
      (clampWarnSpeed n c r).fanSpeed.b = r.fanSpeed.b) ∧
    ((clampWarnSpeed n c r).fanSpeed.c = VFD_LOW_SPEED ∨
      (clampWarnSpeed n c r).fanSpeed.c = r.fanSpeed.c) := by
  simp only [clampWarnSpeed, ControlResult.setSpeed]
  split_ifs <;>
    first
      | exact ⟨Tri.set_a r.fanSpeed n VFD_LOW_SPEED,
               Tri.set_b r.fanSpeed n VFD_LOW_SPEED,
               Tri.set_c r.fanSpeed n VFD_LOW_SPEED⟩
      | exact ⟨Or.inr rfl, Or.inr rfl, Or.inr rfl⟩

theorem clampWarnSpeed_speeds (n : Nat) (c : ℚ) (r : ControlResult)
    (h : SpeedsOK r.vfdEnable r.fanSpeed) :
    SpeedsOK (clampWarnSpeed n c r).vfdEnable (clampWarnSpeed n c r).fanSpeed := by
  obtain ⟨ha, hb, hc⟩ := h
  obtain ⟨da, db, dc⟩ := clampWarnSpeed_fanSpeed n c r
  refine ⟨fun hx => ?_, fun hx => ?_, fun hx => ?_⟩
  · rw [clampWarnSpeed_enable] at hx
    rcases da with hs | hs <;> rw [hs]
    · norm_num [VFD_MIN_SPEED, VFD_LOW_SPEED]
    · exact ha hx
  · rw [clampWarnSpeed_enable] at hx
    rcases db with hs | hs <;> rw [hs]
    · norm_num [VFD_MIN_SPEED, VFD_LOW_SPEED]
    · exact hb hx
  · rw [clampWarnSpeed_enable] at hx
    rcases dc with hs | hs <;> rw [hs]
    · norm_num [VFD_MIN_SPEED, VFD_LOW_SPEED]
    · exact hc hx

theorem monitoring_enable (sensor : SensorData) (r : ControlResult) :
    (applyCurrentAndVibrationMonitoring sensor r).vfdEnable = r.vfdEnable := by
  simp only [applyCurrentAndVibrationMonitoring, BYPASS_CURRENT_LIMITS,
    BYPASS_VIBRATION_LIMITS]
  split_ifs <;> simp only [clampWarnSpeed_enable]

theorem monitoring_speeds (sensor : SensorData) (r : ControlResult)
    (h : SpeedsOK r.vfdEnable r.fanSpeed) :
    SpeedsOK (applyCurrentAndVibrationMonitoring sensor r).vfdEnable
      (applyCurrentAndVibrationMonitoring sensor r).fanSpeed := by
  have h1 := clampWarnSpeed_speeds 1 sensor.vfdCurrents.tower1A r h
  have h2 := clampWarnSpeed_speeds 1 sensor.vfdCurrents.tower1B _ h1
  have h3 := clampWarnSpeed_speeds 2 sensor.vfdCurrents.tower2A _ h2
  have h4 := clampWarnSpeed_speeds 2 sensor.vfdCurrents.tower2B _ h3
  have h5 := clampWarnSpeed_speeds 3 sensor.vfdCurrents.tower3A _ h4
  have h6 := clampWarnSpeed_speeds 3 sensor.vfdCurrents.tower3B _ h5
  simp only [applyCurrentAndVibrationMonitoring, BYPASS_CURRENT_LIMITS,
    BYPASS_VIBRATION_LIMITS]
  split_ifs <;> first | exact h | exact h6

theorem SpeedsOK.get_le {e : Tri Bool} {f : Tri ℚ} (h : SpeedsOK e f) (i : Nat) :
    e.get i = true → VFD_MIN_SPEED ≤ f.get i := by
  obtain ⟨ha, hb, hc⟩ := h
  simp only [Tri.get]
  split_ifs
  · exact ha
  · exact hb
  · exact hc

theorem coerceSubMinimum_char (i : Nat) (r : ControlResult) :
    coerceSubMinimum i r = r ∨
    (r.fanSpeed.get i > 0 ∧ r.fanSpeed.get i < VFD_MIN_SPEED ∧
      coerceSubMinimum i r = (r.setSpeed i 0).setEnable i false) := by
  simp only [coerceSubMinimum]
  split_ifs with h
  · exact Or.inr ⟨h.1, h.2, rfl⟩
  · exact Or.inl rfl

theorem coerce_enable (i : Nat) (r : ControlResult)
    (h : SpeedsOK r.vfdEnable r.fanSpeed) :
    (coerceSubMinimum i r).vfdEnable = r.vfdEnable ∧
    SpeedsOK (coerceSubMinimum i r).vfdEnable (coerceSubMinimum i r).fanSpeed := by
  obtain ⟨ha, hb, hc⟩ := h
  rcases coerceSubMinimum_char i r with heq | ⟨hpos, hlt, heq⟩
  · rw [heq]
    exact ⟨rfl, ha, hb, hc⟩
  · rw [heq]
    have hgf : r.vfdEnable.get i = false := by
      cases hval : r.vfdEnable.get i with
      | false => rfl
      | true => exact absurd (SpeedsOK.get_le ⟨ha, hb, hc⟩ i hval) (not_le.mpr hlt)
    have hve : Tri.set r.vfdEnable i false = r.vfdEnable :=
      Tri.set_eq_self r.vfdEnable i false hgf
    refine ⟨hve, fun hx => ?_, fun hx => ?_, fun hx => ?_⟩
    · replace hx : (Tri.set r.vfdEnable i false).a = true := hx
      rw [hve] at hx
      show VFD_MIN_SPEED ≤ (Tri.set r.fanSpeed i 0).a
      rcases Tri.set_a r.fanSpeed i 0 with hs | hs
      · exfalso
        by_cases h1 : i = 1
        · subst h1
          rw [Tri.get_one] at hgf
          rw [hgf] at hx
          exact Bool.false_ne_true hx
        · have hfa : (Tri.set r.fanSpeed i 0).a = r.fanSpeed.a := by
            simp only [Tri.set]
            split_ifs <;> rfl
          rw [hfa] at hs
          have hge := ha hx
          rw [hs] at hge
          norm_num [VFD_MIN_SPEED] at hge
      · rw [hs]
        exact ha hx
    · replace hx : (Tri.set r.vfdEnable i false).b = true := hx
      rw [hve] at hx
      show VFD_MIN_SPEED ≤ (Tri.set r.fanSpeed i 0).b
      rcases Tri.set_b r.fanSpeed i 0 with hs | hs
      · exfalso
        by_cases h2 : i = 2
        · subst h2
          rw [Tri.get_two] at hgf
          rw [hgf] at hx
          exact Bool.false_ne_true hx
        · have hfb : (Tri.set r.fanSpeed i 0).b = r.fanSpeed.b := by
            simp only [Tri.set]
            split_ifs <;> rfl
          rw [hfb] at hs
          have hge := hb hx
          rw [hs] at hge
          norm_num [VFD_MIN_SPEED] at hge
      · rw [hs]
        exact hb hx
    · replace hx : (Tri.set r.vfdEnable i false).c = true := hx
      rw [hve] at hx
      show VFD_MIN_SPEED ≤ (Tri.set r.fanSpeed i 0).c
      rcases Tri.set_c r.fanSpeed i 0 with hs | hs
      · exfalso
        by_cases h1 : i = 1
        · subst h1
          have hfc : (Tri.set r.fanSpeed 1 0).c = r.fanSpeed.c := by
            simp [Tri.set]
          rw [hfc] at hs
          have hge := hc hx
          rw [hs] at hge
          norm_num [VFD_MIN_SPEED] at hge
        · by_cases h2 : i = 2
          · subst h2
            have hfc : (Tri.set r.fanSpeed 2 0).c = r.fanSpeed.c := by
              simp [Tri.set]
            rw [hfc] at hs
            have hge := hc hx
            rw [hs] at hge
            norm_num [VFD_MIN_SPEED] at hge
          · have hgc : r.vfdEnable.get i = r.vfdEnable.c := by
              simp only [Tri.get, if_neg h1, if_neg h2]
            rw [hgc] at hgf
            rw [hgf] at hx
            exact Bool.false_ne_true hx
      · rw [hs]
        exact hc hx

theorem coerce3_enable (r : ControlResult) (h : SpeedsOK r.vfdEnable r.fanSpeed) :
    (coerceSubMinimum 3 (coerceSubMinimum 2 (coerceSubMinimum 1 r))).vfdEnable =
      r.vfdEnable := by
  have h1 := coerce_enable 1 r h
  have h2 := coerce_enable 2 (coerceSubMinimum 1 r) h1.2
  have h3 := coerce_enable 3 (coerceSubMinimum 2 (coerceSubMinimum 1 r)) h2.2
  rw [h3.1, h2.1, h1.1]

theorem summary_enable (r : ControlResult) (st : StagingDecision)
    (sensor : SensorData) (h : SpeedsOK r.vfdEnable r.fanSpeed) :
    (updateControlResultSummary r st sensor).vfdEnable = r.vfdEnable := by
  have hch := coerce3_enable { r with
      leadTower := st.leadTower
      activeTowers := st.demandedTowers
      coolingDemand := st.coolingDemand
      loopDeltaT := st.deltaT
      targetSupplyTemp := sensor.targetSetpoint } h
  exact hch

theorem tickinv_monitor (now : Int) (r r' : ControlResult) (s : CtState)
    (he : r'.vfdEnable = r.vfdEnable)
    (hok : SpeedsOK r.vfdEnable r.fanSpeed → SpeedsOK r'.vfdEnable r'.fanSpeed)
    (h : TickInv now r s) : TickInv now r' s := by
  obtain ⟨h1, h2, h3, h4, h5, h6⟩ := h
  obtain ⟨k1, k2, k3⟩ := hok ⟨h2, h4, h6⟩
  exact ⟨fun t a b => by rw [he]; exact h1 t a b, k1,
         fun t a b => by rw [he]; exact h3 t a b, k2,
         fun t a b => by rw [he]; exact h5 t a b, k3⟩

/-- The end-of-tick enable invariant of claim C2: any tower whose carried
start time is younger than the minimum runtime is commanded on. -/
def EnableInv (now : Int) (r : ControlResult) (s : CtState) : Prop :=
  (∀ t, s.towers.timers.a.startTime = some t → now - t < MINIMUM_RUNTIME_MS →
     r.vfdEnable.a = true) ∧
  (∀ t, s.towers.timers.b.startTime = some t → now - t < MINIMUM_RUNTIME_MS →
     r.vfdEnable.b = true) ∧
  (∀ t, s.towers.timers.c.startTime = some t → now - t < MINIMUM_RUNTIME_MS →
     r.vfdEnable.c = true)

theorem tickinv_enable (now : Int) (r r' : ControlResult) (s : CtState)
    (he : r'.vfdEnable = r.vfdEnable) (h : TickInv now r s) :
    EnableInv now r' s :=
  ⟨fun t a b => by rw [he]; exact h.1 t a b,
   fun t a b => by rw [he]; exact h.2.2.1 t a b,
   fun t a b => by rw [he]; exact h.2.2.2.2.1 t a b⟩

theorem fold_enforce_tickinv (pid? : Option PidFn) (demand : ℚ)
    (sensor : SensorData) (L : List Nat) (s : CtState) (r : ControlResult)
    (now : Int) (hwf : WFTimers s.towers.timers)
    (hinit : FoldInv s.towers.timers (r, s)) :
    TickInv now
      (enforceMinimumRuntimes sensor
        (L.foldl (fun (acc : ControlResult × CtState) towerNum =>
            if canEnableTower towerNum acc.2 now then
              enableTower pid? towerNum demand sensor acc.2 acc.1 now
            else acc) (r, s)).2
        (L.foldl (fun (acc : ControlResult × CtState) towerNum =>
            if canEnableTower towerNum acc.2 now then
              enableTower pid? towerNum demand sensor acc.2 acc.1 now
            else acc) (r, s)).1 now).1
      (enforceMinimumRuntimes sensor
        (L.foldl (fun (acc : ControlResult × CtState) towerNum =>
            if canEnableTower towerNum acc.2 now then
              enableTower pid? towerNum demand sensor acc.2 acc.1 now
            else acc) (r, s)).2
        (L.foldl (fun (acc : ControlResult × CtState) towerNum =>
            if canEnableTower towerNum acc.2 now then
              enableTower pid? towerNum demand sensor acc.2 acc.1 now
            else acc) (r, s)).1 now).2 := by
  have hstep : ∀ (acc : ControlResult × CtState) (n : Nat),
      FoldInv s.towers.timers acc →
      FoldInv s.towers.timers
        (if canEnableTower n acc.2 now then
           enableTower pid? n demand sensor acc.2 acc.1 now
         else acc) := by
    intro acc n hacc
    split_ifs with hce
    · exact enableTower_foldinv pid? n demand sensor s.towers.timers acc now hacc
    · exact hacc
  have hfold := List.foldl_inv (FoldInv s.towers.timers)
      (fun (acc : ControlResult × CtState) towerNum =>
        if canEnableTower towerNum acc.2 now then
          enableTower pid? towerNum demand sensor acc.2 acc.1 now
        else acc) hstep L (r, s) hinit
  exact enforce_tickinv sensor s.towers.timers _ _ now hwf hfold

theorem controlTowers_tickinv (pid? : Option PidFn) (staging : StagingDecision)
    (sensor : SensorData) (s : CtState) (r : ControlResult) (now : Int)
    (hwf : WFTimers s.towers.timers) :
    TickInv now (controlTowers pid? staging sensor s r now).1
      (controlTowers pid? staging sensor s r now).2 := by
  have hinit : FoldInv s.towers.timers
      ({ r with
          vfdEnable := Tri.const false
          fanSpeed := Tri.const 0
          isoOpen := Tri.const false
          isoClose := Tri.const true }, s) := by
    refine ⟨?_, ?_, ?_, fun _ => rfl, fun _ => rfl, fun _ => rfl⟩ <;>
      intro hx <;> exact absurd hx (by simp [Tri.const])
  have hmain := fold_enforce_tickinv pid? staging.coolingDemand sensor
      ((if staging.demandedTowers ≥ 1 then [staging.leadTower] else []) ++
       (if staging.demandedTowers ≥ 2 then [staging.lagTower1] else []) ++
       (if staging.demandedTowers ≥ 3 then [staging.lagTower2] else []))
      s { r with
          vfdEnable := Tri.const false
          fanSpeed := Tri.const 0
          isoOpen := Tri.const false
          isoClose := Tri.const true } now hwf hinit
  exact tickinv_transport now _ _ _ _ rfl rfl rfl hmain

theorem autoSequence_enableinv (pid? : Option PidFn) (sensor : SensorData)
    (ui : UICommands) (s : CtState) (r : ControlResult) (now : Int)
    (hwf : WFTimers s.towers.timers) :
    EnableInv now (autoSequence pid? sensor ui s r now).1
      (autoSequence pid? sensor ui s r now).2 := by
  have hwf2 : WFTimers (controlPumps sensor (performLeadTowerRotation s now) r now).2.towers.timers := by
    rw [controlPumps_towers sensor (performLeadTowerRotation s now) r now,
        performLeadTowerRotation_timers s now]
    exact hwf
  have hT := controlTowers_tickinv pid? (calculateStaging sensor (performLeadTowerRotation s now)) sensor (controlPumps sensor (performLeadTowerRotation s now) r now).2 (controlPumps sensor (performLeadTowerRotation s now) r now).1 now hwf2
  obtain ⟨ve, vs, vt⟩ := controlValves_frame pid? sensor (controlTowers pid? (calculateStaging sensor (performLeadTowerRotation s now)) sensor (controlPumps sensor (performLeadTowerRotation s now) r now).2 (controlPumps sensor (performLeadTowerRotation s now) r now).1 now).2 (controlTowers pid? (calculateStaging sensor (performLeadTowerRotation s now)) sensor (controlPumps sensor (performLeadTowerRotation s now) r now).2 (controlPumps sensor (performLeadTowerRotation s now) r now).1 now).1 ui
  have hV : TickInv now (controlValves pid? sensor (controlTowers pid? (calculateStaging sensor (performLeadTowerRotation s now)) sensor (controlPumps sensor (performLeadTowerRotation s now) r now).2 (controlPumps sensor (performLeadTowerRotation s now) r now).1 now).2 (controlTowers pid? (calculateStaging sensor (performLeadTowerRotation s now)) sensor (controlPumps sensor (performLeadTowerRotation s now) r now).2 (controlPumps sensor (performLeadTowerRotation s now) r now).1 now).1 ui).1 (controlValves pid? sensor (controlTowers pid? (calculateStaging sensor (performLeadTowerRotation s now)) sensor (controlPumps sensor (performLeadTowerRotation s now) r now).2 (controlPumps sensor (performLeadTowerRotation s now) r now).1 now).2 (controlTowers pid? (calculateStaging sensor (performLeadTowerRotation s now)) sensor (controlPumps sensor (performLeadTowerRotation s now) r now).2 (controlPumps sensor (performLeadTowerRotation s now) r now).1 now).1 ui).2 :=
    tickinv_transport now (controlTowers pid? (calculateStaging sensor (performLeadTowerRotation s now)) sensor (controlPumps sensor (performLeadTowerRotation s now) r now).2 (controlPumps sensor (performLeadTowerRotation s now) r now).1 now).1 (controlValves pid? sensor (controlTowers pid? (calculateStaging sensor (performLeadTowerRotation s now)) sensor (controlPumps sensor (performLeadTowerRotation s now) r now).2 (controlPumps sensor (performLeadTowerRotation s now) r now).1 now).2 (controlTowers pid? (calculateStaging sensor (performLeadTowerRotation s now)) sensor (controlPumps sensor (performLeadTowerRotation s now) r now).2 (controlPumps sensor (performLeadTowerRotation s now) r now).1 now).1 ui).1 (controlTowers pid? (calculateStaging sensor (performLeadTowerRotation s now)) sensor (controlPumps sensor (performLeadTowerRotation s now) r now).2 (controlPumps sensor (performLeadTowerRotation s now) r now).1 now).2 (controlValves pid? sensor (controlTowers pid? (calculateStaging sensor (performLeadTowerRotation s now)) sensor (controlPumps sensor (performLeadTowerRotation s now) r now).2 (controlPumps sensor (performLeadTowerRotation s now) r now).1 now).2 (controlTowers pid? (calculateStaging sensor (performLeadTowerRotation s now)) sensor (controlPumps sensor (performLeadTowerRotation s now) r now).2 (controlPumps sensor (performLeadTowerRotation s now) r now).1 now).1 ui).2 ve vs (by rw [vt]) hT
  obtain ⟨e1, s1⟩ := controlHeaters_frame sensor.temps.outdoor (controlValves pid? sensor (controlTowers pid? (calculateStaging sensor (performLeadTowerRotation s now)) sensor (controlPumps sensor (performLeadTowerRotation s now) r now).2 (controlPumps sensor (performLeadTowerRotation s now) r now).1 now).2 (controlTowers pid? (calculateStaging sensor (performLeadTowerRotation s now)) sensor (controlPumps sensor (performLeadTowerRotation s now) r now).2 (controlPumps sensor (performLeadTowerRotation s now) r now).1 now).1 ui).1
  have hH : TickInv now (controlHeaters sensor.temps.outdoor (controlValves pid? sensor (controlTowers pid? (calculateStaging sensor (performLeadTowerRotation s now)) sensor (controlPumps sensor (performLeadTowerRotation s now) r now).2 (controlPumps sensor (performLeadTowerRotation s now) r now).1 now).2 (controlTowers pid? (calculateStaging sensor (performLeadTowerRotation s now)) sensor (controlPumps sensor (performLeadTowerRotation s now) r now).2 (controlPumps sensor (performLeadTowerRotation s now) r now).1 now).1 ui).1) (controlValves pid? sensor (controlTowers pid? (calculateStaging sensor (performLeadTowerRotation s now)) sensor (controlPumps sensor (performLeadTowerRotation s now) r now).2 (controlPumps sensor (performLeadTowerRotation s now) r now).1 now).2 (controlTowers pid? (calculateStaging sensor (performLeadTowerRotation s now)) sensor (controlPumps sensor (performLeadTowerRotation s now) r now).2 (controlPumps sensor (performLeadTowerRotation s now) r now).1 now).1 ui).2 :=
    tickinv_transport now (controlValves pid? sensor (controlTowers pid? (calculateStaging sensor (performLeadTowerRotation s now)) sensor (controlPumps sensor (performLeadTowerRotation s now) r now).2 (controlPumps sensor (performLeadTowerRotation s now) r now).1 now).2 (controlTowers pid? (calculateStaging sensor (performLeadTowerRotation s now)) sensor (controlPumps sensor (performLeadTowerRotation s now) r now).2 (controlPumps sensor (performLeadTowerRotation s now) r now).1 now).1 ui).1 (controlHeaters sensor.temps.outdoor (controlValves pid? sensor (controlTowers pid? (calculateStaging sensor (performLeadTowerRotation s now)) sensor (controlPumps sensor (performLeadTowerRotation s now) r now).2 (controlPumps sensor (performLeadTowerRotation s now) r now).1 now).2 (controlTowers pid? (calculateStaging sensor (performLeadTowerRotation s now)) sensor (controlPumps sensor (performLeadTowerRotation s now) r now).2 (controlPumps sensor (performLeadTowerRotation s now) r now).1 now).1 ui).1) (controlValves pid? sensor (controlTowers pid? (calculateStaging sensor (performLeadTowerRotation s now)) sensor (controlPumps sensor (performLeadTowerRotation s now) r now).2 (controlPumps sensor (performLeadTowerRotation s now) r now).1 now).2 (controlTowers pid? (calculateStaging sensor (performLeadTowerRotation s now)) sensor (controlPumps sensor (performLeadTowerRotation s now) r now).2 (controlPumps sensor (performLeadTowerRotation s now) r now).1 now).1 ui).2 (controlValves pid? sensor (controlTowers pid? (calculateStaging sensor (performLeadTowerRotation s now)) sensor (controlPumps sensor (performLeadTowerRotation s now) r now).2 (controlPumps sensor (performLeadTowerRotation s now) r now).1 now).2 (controlTowers pid? (calculateStaging sensor (performLeadTowerRotation s now)) sensor (controlPumps sensor (performLeadTowerRotation s now) r now).2 (controlPumps sensor (performLeadTowerRotation s now) r now).1 now).1 ui).2 e1 s1 rfl hV
  have hM : TickInv now (applyCurrentAndVibrationMonitoring sensor (controlHeaters sensor.temps.outdoor (controlValves pid? sensor (controlTowers pid? (calculateStaging sensor (performLeadTowerRotation s now)) sensor (controlPumps sensor (performLeadTowerRotation s now) r now).2 (controlPumps sensor (performLeadTowerRotation s now) r now).1 now).2 (controlTowers pid? (calculateStaging sensor (performLeadTowerRotation s now)) sensor (controlPumps sensor (performLeadTowerRotation s now) r now).2 (controlPumps sensor (performLeadTowerRotation s now) r now).1 now).1 ui).1)) (controlValves pid? sensor (controlTowers pid? (calculateStaging sensor (performLeadTowerRotation s now)) sensor (controlPumps sensor (performLeadTowerRotation s now) r now).2 (controlPumps sensor (performLeadTowerRotation s now) r now).1 now).2 (controlTowers pid? (calculateStaging sensor (performLeadTowerRotation s now)) sensor (controlPumps sensor (performLeadTowerRotation s now) r now).2 (controlPumps sensor (performLeadTowerRotation s now) r now).1 now).1 ui).2 :=
    tickinv_monitor now (controlHeaters sensor.temps.outdoor (controlValves pid? sensor (controlTowers pid? (calculateStaging sensor (performLeadTowerRotation s now)) sensor (controlPumps sensor (performLeadTowerRotation s now) r now).2 (controlPumps sensor (performLeadTowerRotation s now) r now).1 now).2 (controlTowers pid? (calculateStaging sensor (performLeadTowerRotation s now)) sensor (controlPumps sensor (performLeadTowerRotation s now) r now).2 (controlPumps sensor (performLeadTowerRotation s now) r now).1 now).1 ui).1) (applyCurrentAndVibrationMonitoring sensor (controlHeaters sensor.temps.outdoor (controlValves pid? sensor (controlTowers pid? (calculateStaging sensor (performLeadTowerRotation s now)) sensor (controlPumps sensor (performLeadTowerRotation s now) r now).2 (controlPumps sensor (performLeadTowerRotation s now) r now).1 now).2 (controlTowers pid? (calculateStaging sensor (performLeadTowerRotation s now)) sensor (controlPumps sensor (performLeadTowerRotation s now) r now).2 (controlPumps sensor (performLeadTowerRotation s now) r now).1 now).1 ui).1)) (controlValves pid? sensor (controlTowers pid? (calculateStaging sensor (performLeadTowerRotation s now)) sensor (controlPumps sensor (performLeadTowerRotation s now) r now).2 (controlPumps sensor (performLeadTowerRotation s now) r now).1 now).2 (controlTowers pid? (calculateStaging sensor (performLeadTowerRotation s now)) sensor (controlPumps sensor (performLeadTowerRotation s now) r now).2 (controlPumps sensor (performLeadTowerRotation s now) r now).1 now).1 ui).2 (monitoring_enable sensor (controlHeaters sensor.temps.outdoor (controlValves pid? sensor (controlTowers pid? (calculateStaging sensor (performLeadTowerRotation s now)) sensor (controlPumps sensor (performLeadTowerRotation s now) r now).2 (controlPumps sensor (performLeadTowerRotation s now) r now).1 now).2 (controlTowers pid? (calculateStaging sensor (performLeadTowerRotation s now)) sensor (controlPumps sensor (performLeadTowerRotation s now) r now).2 (controlPumps sensor (performLeadTowerRotation s now) r now).1 now).1 ui).1))
      (monitoring_speeds sensor (controlHeaters sensor.temps.outdoor (controlValves pid? sensor (controlTowers pid? (calculateStaging sensor (performLeadTowerRotation s now)) sensor (controlPumps sensor (performLeadTowerRotation s now) r now).2 (controlPumps sensor (performLeadTowerRotation s now) r now).1 now).2 (controlTowers pid? (calculateStaging sensor (performLeadTowerRotation s now)) sensor (controlPumps sensor (performLeadTowerRotation s now) r now).2 (controlPumps sensor (performLeadTowerRotation s now) r now).1 now).1 ui).1)) hH
  have hok : SpeedsOK (applyCurrentAndVibrationMonitoring sensor (controlHeaters sensor.temps.outdoor (controlValves pid? sensor (controlTowers pid? (calculateStaging sensor (performLeadTowerRotation s now)) sensor (controlPumps sensor (performLeadTowerRotation s now) r now).2 (controlPumps sensor (performLeadTowerRotation s now) r now).1 now).2 (controlTowers pid? (calculateStaging sensor (performLeadTowerRotation s now)) sensor (controlPumps sensor (performLeadTowerRotation s now) r now).2 (controlPumps sensor (performLeadTowerRotation s now) r now).1 now).1 ui).1)).vfdEnable (applyCurrentAndVibrationMonitoring sensor (controlHeaters sensor.temps.outdoor (controlValves pid? sensor (controlTowers pid? (calculateStaging sensor (performLeadTowerRotation s now)) sensor (controlPumps sensor (performLeadTowerRotation s now) r now).2 (controlPumps sensor (performLeadTowerRotation s now) r now).1 now).2 (controlTowers pid? (calculateStaging sensor (performLeadTowerRotation s now)) sensor (controlPumps sensor (performLeadTowerRotation s now) r now).2 (controlPumps sensor (performLeadTowerRotation s now) r now).1 now).1 ui).1)).fanSpeed :=
    tickinv_speeds now (applyCurrentAndVibrationMonitoring sensor (controlHeaters sensor.temps.outdoor (controlValves pid? sensor (controlTowers pid? (calculateStaging sensor (performLeadTowerRotation s now)) sensor (controlPumps sensor (performLeadTowerRotation s now) r now).2 (controlPumps sensor (performLeadTowerRotation s now) r now).1 now).2 (controlTowers pid? (calculateStaging sensor (performLeadTowerRotation s now)) sensor (controlPumps sensor (performLeadTowerRotation s now) r now).2 (controlPumps sensor (performLeadTowerRotation s now) r now).1 now).1 ui).1)) (controlValves pid? sensor (controlTowers pid? (calculateStaging sensor (performLeadTowerRotation s now)) sensor (controlPumps sensor (performLeadTowerRotation s now) r now).2 (controlPumps sensor (performLeadTowerRotation s now) r now).1 now).2 (controlTowers pid? (calculateStaging sensor (performLeadTowerRotation s now)) sensor (controlPumps sensor (performLeadTowerRotation s now) r now).2 (controlPumps sensor (performLeadTowerRotation s now) r now).1 now).1 ui).2 hM
  exact tickinv_enable now (applyCurrentAndVibrationMonitoring sensor (controlHeaters sensor.temps.outdoor (controlValves pid? sensor (controlTowers pid? (calculateStaging sensor (performLeadTowerRotation s now)) sensor (controlPumps sensor (performLeadTowerRotation s now) r now).2 (controlPumps sensor (performLeadTowerRotation s now) r now).1 now).2 (controlTowers pid? (calculateStaging sensor (performLeadTowerRotation s now)) sensor (controlPumps sensor (performLeadTowerRotation s now) r now).2 (controlPumps sensor (performLeadTowerRotation s now) r now).1 now).1 ui).1)) _ (controlValves pid? sensor (controlTowers pid? (calculateStaging sensor (performLeadTowerRotation s now)) sensor (controlPumps sensor (performLeadTowerRotation s now) r now).2 (controlPumps sensor (performLeadTowerRotation s now) r now).1 now).2 (controlTowers pid? (calculateStaging sensor (performLeadTowerRotation s now)) sensor (controlPumps sensor (performLeadTowerRotation s now) r now).2 (controlPumps sensor (performLeadTowerRotation s now) r now).1 now).1 ui).2
    (summary_enable (applyCurrentAndVibrationMonitoring sensor (controlHeaters sensor.temps.outdoor (controlValves pid? sensor (controlTowers pid? (calculateStaging sensor (performLeadTowerRotation s now)) sensor (controlPumps sensor (performLeadTowerRotation s now) r now).2 (controlPumps sensor (performLeadTowerRotation s now) r now).1 now).2 (controlTowers pid? (calculateStaging sensor (performLeadTowerRotation s now)) sensor (controlPumps sensor (performLeadTowerRotation s now) r now).2 (controlPumps sensor (performLeadTowerRotation s now) r now).1 now).1 ui).1)) (calculateStaging sensor (performLeadTowerRotation s now)) sensor hok) hM

theorem applyManualOverrides_systemEnabled (ui : UICommands) (r : ControlResult) :
    (applyManualOverrides ui r).systemEnabled =
      ui.systemEnabled.getD r.systemEnabled := rfl

theorem applyManualOverrides_controlMode (ui : UICommands) (r : ControlResult) :
    (applyManualOverrides ui r).controlMode =
      ui.controlMode.getD r.controlMode := rfl

/-- Claim C2 (amended): on every tick that reaches automatic control (no
critical fault, system enabled and auto mode after UI overrides) and whose
carried start timestamps are genuine (never the JavaScript-falsy 0), every
tower whose end-of-tick start time is younger than the 420 s minimum
runtime has its VFD enable commanded true. -/
theorem claim2_invariant (pid? : Option PidFn) (data : RawData) (ui : UICommands)
    (s : CtState) (now : Int)
    (hwf : WFTimers s.towers.timers)
    (hsafe : criticalFaultList (parseSensorData data s.lastGoodTemps).1 = [])
    (hen : ui.systemEnabled ≠ some false)
    (hmode : ui.controlMode = none ∨ ui.controlMode = some "auto") :
    EnableInv now (step pid? data ui s now).1 (step pid? data ui s now).2 := by
  have hsfc : performSafetyChecks (parseSensorData data s.lastGoodTemps).1
      (initControlResult (parseSensorData data s.lastGoodTemps).1 now) =
      ({ initControlResult (parseSensorData data s.lastGoodTemps).1 now with
          faultConditions :=
            criticalFaultList (parseSensorData data s.lastGoodTemps).1
          safetyBypasses := safetyBypassList }, true) := by
    simp only [performSafetyChecks]
    rw [if_neg (fun hne => hne hsafe)]
  have hse : (applyManualOverrides ui
      { initControlResult (parseSensorData data s.lastGoodTemps).1 now with
          faultConditions :=
            criticalFaultList (parseSensorData data s.lastGoodTemps).1
          safetyBypasses := safetyBypassList }).systemEnabled = true := by
    rw [applyManualOverrides_systemEnabled]
    cases hu : ui.systemEnabled with
    | none => rfl
    | some b =>
        cases b with
        | false => exact absurd hu hen
        | true => rfl
  have hcm : (applyManualOverrides ui
      { initControlResult (parseSensorData data s.lastGoodTemps).1 now with
          faultConditions :=
            criticalFaultList (parseSensorData data s.lastGoodTemps).1
          safetyBypasses := safetyBypassList }).controlMode = "auto" := by
    rw [applyManualOverrides_controlMode]
    rcases hmode with h | h <;> rw [h] <;> rfl
  have hg2 : ¬((applyManualOverrides ui
      { initControlResult (parseSensorData data s.lastGoodTemps).1 now with
          faultConditions :=
            criticalFaultList (parseSensorData data s.lastGoodTemps).1
          safetyBypasses := safetyBypassList }).systemEnabled = false ∨
      (applyManualOverrides ui
      { initControlResult (parseSensorData data s.lastGoodTemps).1 now with
          faultConditions :=
            criticalFaultList (parseSensorData data s.lastGoodTemps).1
          safetyBypasses := safetyBypassList }).controlMode ≠ "auto") := by
    rintro (h | h)
    · rw [hse] at h
      exact absurd h (by decide)
    · exact h hcm
  simp only [step, hsfc]
  rw [if_neg (by decide : ¬((true : Bool) = false))]
  rw [if_neg hg2]
  exact autoSequence_enableinv pid? (parseSensorData data s.lastGoodTemps).1 ui
    { s with lastGoodTemps := (parseSensorData data s.lastGoodTemps).2 }
    (applyManualOverrides ui { initControlResult (parseSensorData data s.lastGoodTemps).1 now with
          faultConditions :=
            criticalFaultList (parseSensorData data s.lastGoodTemps).1
          safetyBypasses := safetyBypassList }) now hwf


def c2data : RawData :=
  { CH8 := some 20
    CH5 := some 20
    CH6 := some 20
    CH2 := some 75
    CH10 := some 80
    CH9 := some 85
    CH1 := some 85
    outdoorTemp := some 75
    WTV801_1 := some 10 }

def c2state : CtState :=
  { mkInitialState 0 with towers :=
      { (mkInitialState 0).towers with
          timers := ⟨⟨some 900000, none⟩, ⟨none, none⟩, ⟨none, none⟩⟩ } }

set_option maxHeartbeats 4000000 in
/-- Counterexample to claim C2 as stated: on a tick with a critical
vibration fault, tower 1's carried start time (100 s old, well under
420 s) survives the tick, yet the safe-shutdown output commands its VFD
enable false. -/
theorem claim2_cex :
    (step none c2data {} c2state 1000000).2.towers.timers.a.startTime =
      some 900000 ∧
    (1000000 : Int) - 900000 < MINIMUM_RUNTIME_MS ∧
    (step none c2data {} c2state 1000000).1.vfdEnable.a = false := by
  norm_num [step, parseSensorData, sanitizeTemperatures, jsOr, c2state, c2data,
    mkInitialState, Tri.const, initControlResult, performSafetyChecks,
    criticalFaultList, vibCritFault, vfdCritFault, pumpOverFault, safetyBypassList,
    BYPASS_VIBRATION_LIMITS, BYPASS_CURRENT_LIMITS, BYPASS_EMERGENCY_STOP,
    BYPASS_WATER_LEVEL, BYPASS_PUMP_STATUS, BYPASS_VFD_FAULTS,
    VIBRATION_CRITICAL_LIMIT, VFD_CURRENT_CRITICAL, PUMP_CURRENT_MIN,
    PUMP_CURRENT_MAX, MINIMUM_RUNTIME_MS]

set_option maxHeartbeats 4000000 in
/-- Witness for the amended claim C2 theorem at a concrete input: the
fresh initial state with empty raw data and no UI overrides reaches
automatic control, and the end-of-tick enable invariant holds. -/
theorem claim2_invariant_wit :
    WFTimers (mkInitialState 0).towers.timers ∧
    criticalFaultList (parseSensorData {} (mkInitialState 0).lastGoodTemps).1 = [] ∧
    ({} : UICommands).systemEnabled ≠ some false ∧
    (({} : UICommands).controlMode = none ∨
      ({} : UICommands).controlMode = some "auto") ∧
    EnableInv 0 (step none {} {} (mkInitialState 0) 0).1
      (step none {} {} (mkInitialState 0) 0).2 := by
  have hwf : WFTimers (mkInitialState 0).towers.timers := by
    refine ⟨?_, ?_, ?_⟩ <;> simp [mkInitialState, Tri.const]
  have hsafe : criticalFaultList
      (parseSensorData {} (mkInitialState 0).lastGoodTemps).1 = [] := by
    norm_num [criticalFaultList, parseSensorData, sanitizeTemperatures, jsOr,
      mkInitialState, Tri.const, vibCritFault, vfdCritFault, pumpOverFault,
      BYPASS_VIBRATION_LIMITS, BYPASS_CURRENT_LIMITS, VIBRATION_CRITICAL_LIMIT,
      VFD_CURRENT_CRITICAL, PUMP_CURRENT_MAX]
  have hen : ({} : UICommands).systemEnabled ≠ some false := by
    intro h
    exact Option.noConfusion h
  have hmode : ({} : UICommands).controlMode = none ∨
      ({} : UICommands).controlMode = some "auto" := Or.inl rfl
  exact ⟨hwf, hsafe, hen, hmode,
    claim2_invariant none {} {} (mkInitialState 0) 0 hwf hsafe hen hmode⟩


-- ================= CLAIM C3 (staging decider) =================

/-- The staging decision table exactly as the specification words it
(claim C3): running towers are those with start_time set (non-null). -/
def stagingSpecTable (hpSupply towerSupply setpoint : ℚ) (timers : Tri Timer) :
    Nat × ℚ :=
  let dT := hpSupply - setpoint
  let anyRunning := timers.a.startTime.isSome || timers.b.startTime.isSome ||
    timers.c.startTime.isSome
  let runningCount := (if timers.a.startTime.isSome then 1 else 0) +
    (if timers.b.startTime.isSome then 1 else 0) +
    (if timers.c.startTime.isSome then 1 else 0)
  if dT < -15 ∨ hpSupply < 65 ∨ towerSupply < 50 then (0, 0)
  else if anyRunning ∧ dT ≥ -5 then
    (max 1 runningCount, max 28 (min 100 (28 + 3 * dT)))
  else if dT ≥ 35 then (3, 100)
  else if dT ≥ 30 then (3, 75)
  else if dT ≥ 20 then (2, 60)
  else if dT ≥ 10 then (1, max 28 (min 50 (28 + 2 * (dT - 10))))
  else (0, 0)

set_option maxHeartbeats 2000000 in
/-- Claim C3: the staging decider computes deltaT = HP_supply - setpoint
and evaluates the decision table top-down with first match winning,
agreeing with the specification table on every input whose timers are
genuine timestamps (never the falsy value 0), and returns the lead/lag
tower order lead, (lead mod 3)+1, ((lead+1) mod 3)+1. -/
theorem claim3_staging (sensor : SensorData) (s : CtState)
    (hwf1 : s.towers.timers.a.startTime ≠ some 0)
    (hwf2 : s.towers.timers.b.startTime ≠ some 0)
    (hwf3 : s.towers.timers.c.startTime ≠ some 0) :
    ((calculateStaging sensor s).demandedTowers,
     (calculateStaging sensor s).coolingDemand) =
      stagingSpecTable sensor.temps.hpSupply sensor.temps.towerSupply
        sensor.targetSetpoint s.towers.timers ∧
    (calculateStaging sensor s).deltaT =
      sensor.temps.hpSupply - sensor.targetSetpoint ∧
    (calculateStaging sensor s).leadTower = s.towers.leadTower ∧
    (calculateStaging sensor s).lagTower1 = (s.towers.leadTower % 3) + 1 ∧
    (calculateStaging sensor s).lagTower2 = ((s.towers.leadTower + 1) % 3) + 1 := by
  refine ⟨?_, rfl, rfl, rfl, rfl⟩
  have e1 : jsSet s.towers.timers.a.startTime = s.towers.timers.a.startTime.isSome :=
    jsSet_eq_isSome hwf1
  have e2 : jsSet s.towers.timers.b.startTime = s.towers.timers.b.startTime.isSome :=
    jsSet_eq_isSome hwf2
  have e3 : jsSet s.towers.timers.c.startTime = s.towers.timers.c.startTime.isSome :=
    jsSet_eq_isSome hwf3
  simp only [calculateStaging, stagingSpecTable, isAnyTowerCurrentlyRunning,
    getCurrentlyRunningTowerCount, STAGE_1_DELTA_T, STAGE_2_DELTA_T,
    STAGE_3_DELTA_T, STAGE_4_DELTA_T, e1, e2, e3]
  split_ifs <;> simp_all <;> try ring_nf <;> try linarith

def c3sensor : SensorData :=
  { vfdCurrents := ⟨0, 0, 0, 0, 0, 0⟩
    pumpCurrents := ⟨20, 20, 20⟩
    temps := ⟨80, 85, 85, 90, 75⟩
    vibration := ⟨0, 0, 0⟩
    targetSetpoint := 75 }

/-- Witness for claim C3 at a concrete input (deltaT = 15: one tower at
38 percent demand). -/
theorem claim3_staging_wit :
    ((mkInitialState 0).towers.timers.a.startTime ≠ some 0) ∧
    (((calculateStaging c3sensor (mkInitialState 0)).demandedTowers,
      (calculateStaging c3sensor (mkInitialState 0)).coolingDemand) =
        stagingSpecTable c3sensor.temps.hpSupply c3sensor.temps.towerSupply
          c3sensor.targetSetpoint (mkInitialState 0).towers.timers) ∧
    stagingSpecTable c3sensor.temps.hpSupply c3sensor.temps.towerSupply
        c3sensor.targetSetpoint (mkInitialState 0).towers.timers = (1, 38) := by
  have hwf : (mkInitialState 0).towers.timers.a.startTime ≠ some 0 := by
    simp [mkInitialState, Tri.const]
  refine ⟨hwf, (claim3_staging c3sensor (mkInitialState 0) hwf
    (by simp [mkInitialState, Tri.const]) (by simp [mkInitialState, Tri.const])).1, ?_⟩
  norm_num [stagingSpecTable, c3sensor, mkInitialState, Tri.const]

-- ================= CLAIM C8 (valve UI overrides) =================

/-- Claim C8 (amended): a tempering-valve UI override is always honored
(clamped into 2..10 V) and skips automatic valve control entirely, with a
simultaneous bypass override also honored; but a bypass override alone is
NOT honored: whenever no tempering override is present, the automatic
regime overwrites the bypass output to 2.0 V on every path. -/
theorem claim8_valves (pid? : Option PidFn) (sensor : SensorData) (s : CtState)
    (r : ControlResult) (ui : UICommands) :
    (∀ v, ui.temperingValvePosition = some v →
       (controlValves pid? sensor s r ui).1.temperingValvePosition = clampValve v ∧
       (controlValves pid? sensor s r ui).2 = s ∧
       (∀ w, ui.bypassValvePosition = some w →
          (controlValves pid? sensor s r ui).1.bypassValvePosition = clampValve w)) ∧
    (ui.temperingValvePosition = none →
       (controlValves pid? sensor s r ui).1.bypassValvePosition = 2) := by
  constructor
  · intro v hv
    cases hw : ui.bypassValvePosition with
    | none => simp [controlValves, hv, hw]
    | some w => simp [controlValves, hv, hw]
  · intro hv
    cases hw : ui.bypassValvePosition with
    | none =>
        simp only [controlValves, hv, hw]
        split_ifs <;> cases pid? <;> simp [applyFallbackValveControl] <;>
          first
            | (split_ifs <;> norm_num)
            | norm_num
    | some w =>
        simp only [controlValves, hv, hw]
        split_ifs <;> cases pid? <;> simp [applyFallbackValveControl] <;>
          first
            | (split_ifs <;> norm_num)
            | norm_num


def c8sensor : SensorData :=
  { vfdCurrents := ⟨0, 0, 0, 0, 0, 0⟩
    pumpCurrents := ⟨20, 20, 20⟩
    temps := ⟨80, 85, 85, 76, 75⟩
    vibration := ⟨0, 0, 0⟩
    targetSetpoint := 75 }

/-- Claim C8 counterexample: with only bypassValvePosition = 8 present
(no tempering override) and outdoor at 75 degF, the returned bypass
position is 2 V, not clamp(8) = 8 V. -/
theorem claim8_cex :
    (controlValves none c8sensor (mkInitialState 0)
        (initControlResult c8sensor 0)
        { bypassValvePosition := some 8 }).1.bypassValvePosition = 2 ∧
    clampValve 8 = 8 ∧ (2 : ℚ) ≠ 8 := by
  refine ⟨?_, by norm_num [clampValve], by norm_num⟩
  norm_num [controlValves, c8sensor, clampValve, initControlResult, mkInitialState,
    Tri.const, applyFallbackValveControl]

/-- Witness for claim C8 at a concrete input (tempering override 12
clamps to 10, bypass override 8 honored alongside it). -/
theorem claim8_valves_wit :
    (({ bypassValvePosition := some 8, temperingValvePosition := some 12 } :
        UICommands).temperingValvePosition = some 12) ∧
    ((controlValves none c8sensor (mkInitialState 0) (initControlResult c8sensor 0)
        { bypassValvePosition := some 8, temperingValvePosition := some 12 }).1.temperingValvePosition =
      clampValve 12 ∧
     (controlValves none c8sensor (mkInitialState 0) (initControlResult c8sensor 0)
        { bypassValvePosition := some 8, temperingValvePosition := some 12 }).2 =
       mkInitialState 0 ∧
     (controlValves none c8sensor (mkInitialState 0) (initControlResult c8sensor 0)
        { bypassValvePosition := some 8, temperingValvePosition := some 12 }).1.bypassValvePosition =
       clampValve 8) := by
  have h := (claim8_valves none c8sensor (mkInitialState 0)
    (initControlResult c8sensor 0)
    { bypassValvePosition := some 8, temperingValvePosition := some 12 }).1 12 rfl
  exact ⟨rfl, h.1, h.2.1, h.2.2 8 rfl⟩

-- ================= CLAIM C5 (pump failover trace) =================

def c5data : RawData :=
  { CH8 := some 2
    CH5 := some 20
    CH6 := some 20
    CH2 := some 75
    CH10 := some 80
    CH9 := some 85
    CH1 := some 85
    outdoorTemp := some 75 }

/-- The claim C5 starting state: active pump 1, no changeover in progress,
last failover 60 s before the tick. -/
def c5state : CtState :=
  { mkInitialState 1000000000 with
      pumps := { (mkInitialState 1000000000).pumps with
        lastFailoverTime := 1000000000 - 60000 } }

/-- Carried state after the failure-detection tick. -/
def c5state1 : CtState :=
  { mkInitialState 1000000000 with
      pumps :=
        { activePump := 1
          lastRotationTime := 1000000000
          runtimeTracking := ⟨7 / 3600000, 0, 0⟩
          changeoverState := some ⟨2, 1000000000⟩
          failoverCount := 1
          lastFailoverTime := 1000000000 }
      pidStates := { (mkInitialState 1000000000).pidStates with valve := ⟨0, 0, 2⟩ }
      lastGoodTemps := ⟨80, 85, 85, 75⟩ }

/-- Carried state after the within-overlap tick. -/
def c5state2 : CtState :=
  { c5state1 with
      pumps := { c5state1.pumps with runtimeTracking := ⟨7 / 1800000, 0, 0⟩ } }

set_option maxHeartbeats 8000000 in
/-- Claim C5 counterexample: on the tick that detects the pump-1 failure
(current 2 A below 10 A, last failover 60 s ago), the engine creates the
changeover record with new pump 2, but neither pump 1 nor pump 2 is
enabled during that same tick, where the claim requires both enables
true. -/
theorem claim5_cex :
    (step none c5data {} c5state 1000000000).2.pumps.changeoverState =
      some ⟨2, 1000000000⟩ ∧
    (step none c5data {} c5state 1000000000).2.pumps.failoverCount = 1 ∧
    (step none c5data {} c5state 1000000000).1.pumpEnable.a = false ∧
    (step none c5data {} c5state 1000000000).1.pumpEnable.b = false := by
  norm_num [step, parseSensorData, sanitizeTemperatures, jsOr, mkInitialState, Tri.const,
    initControlResult, performSafetyChecks, criticalFaultList, vibCritFault, vfdCritFault,
    pumpOverFault, safetyBypassList, BYPASS_VIBRATION_LIMITS, BYPASS_CURRENT_LIMITS,
    BYPASS_EMERGENCY_STOP, BYPASS_WATER_LEVEL, BYPASS_PUMP_STATUS, BYPASS_VFD_FAULTS,
    applyManualOverrides, autoSequence, performLeadTowerRotation, WEEK_IN_MS,
    calculateStaging, isAnyTowerCurrentlyRunning, getCurrentlyRunningTowerCount,
    STAGE_1_DELTA_T, STAGE_2_DELTA_T, STAGE_3_DELTA_T, STAGE_4_DELTA_T,
    controlPumps, checkPumpFailure, checkPumpRotation, findNextAvailablePump,
    PUMP_AVAILABLE, updatePumpRuntime, ControlResult.setEnable, ControlResult.setSpeed,
    ControlResult.setIsoOpen, ControlResult.setIsoClose, ControlResult.setPumpEnable,
    ControlResult.setHeater, Tri.get, Tri.set, controlTowers, canEnableTower,
    TOWER_AVAILABLE, enableTower, calculateTowerSpeed, calculateFallbackSpeed,
    applySpeedRamping, enforceMinimumRuntimes, enforceOne, jsSet, MINIMUM_RUNTIME_MS,
    MINIMUM_OFFTIME_MS, PUMP_CHANGEOVER_OVERLAP_MS, controlValves, clampValve,
    applyFallbackValveControl, controlHeaters, applyCurrentAndVibrationMonitoring,
    vfdWarnFault, vibWarnFault, clampWarnSpeed, VIBRATION_WARNING_LIMIT,
    VIBRATION_CRITICAL_LIMIT, VFD_CURRENT_WARNING, VFD_CURRENT_CRITICAL,
    PUMP_CURRENT_MIN, PUMP_CURRENT_MAX, VFD_MIN_SPEED, VFD_MAX_SPEED, VFD_LOW_SPEED,
    updateControlResultSummary, coerceSubMinimum, TOWER_ID, c5data, c5state, c5state1,
    c5state2, PidStates.getTower, PidStates.setTower]

set_option maxHeartbeats 8000000 in
/-- Claim C5 (amended): from the claim's starting state, the
failure-detection tick creates the changeover record with new pump 2 and
increments the failover count but enables no pump during that tick; a
tick 3 s later (inside the 5 s overlap) enables both pump 1 and pump 2;
a tick 9 s after the start (past the 5 s overlap) completes the
changeover: the carried active pump becomes 2 and only pump 2 is
enabled. -/
theorem claim5_trace :
    (step none c5data {} c5state 1000000000).2.pumps.changeoverState =
      some ⟨2, 1000000000⟩ ∧
    (step none c5data {} c5state 1000000000).1.pumpEnable = Tri.const false ∧
    (step none c5data {}
        (step none c5data {} c5state 1000000000).2 1000003000).1.pumpEnable =
      ⟨true, true, false⟩ ∧
    (step none c5data {}
        (step none c5data {} c5state 1000000000).2 1000003000).2.pumps.changeoverState =
      some ⟨2, 1000000000⟩ ∧
    (step none c5data {}
        (step none c5data {}
          (step none c5data {} c5state 1000000000).2 1000003000).2
        1000009000).1.pumpEnable = ⟨false, true, false⟩ ∧
    (step none c5data {}
        (step none c5data {}
          (step none c5data {} c5state 1000000000).2 1000003000).2
        1000009000).2.pumps.activePump = 2 ∧
    (step none c5data {}
        (step none c5data {}
          (step none c5data {} c5state 1000000000).2 1000003000).2
        1000009000).2.pumps.changeoverState = none := by
  have h1 : (step none c5data {} c5state 1000000000).2 = c5state1 ∧
      (step none c5data {} c5state 1000000000).2.pumps.changeoverState =
        some ⟨2, 1000000000⟩ ∧
      (step none c5data {} c5state 1000000000).1.pumpEnable = Tri.const false := by
    norm_num [step, parseSensorData, sanitizeTemperatures, jsOr, mkInitialState, Tri.const,
    initControlResult, performSafetyChecks, criticalFaultList, vibCritFault, vfdCritFault,
    pumpOverFault, safetyBypassList, BYPASS_VIBRATION_LIMITS, BYPASS_CURRENT_LIMITS,
    BYPASS_EMERGENCY_STOP, BYPASS_WATER_LEVEL, BYPASS_PUMP_STATUS, BYPASS_VFD_FAULTS,
    applyManualOverrides, autoSequence, performLeadTowerRotation, WEEK_IN_MS,
    calculateStaging, isAnyTowerCurrentlyRunning, getCurrentlyRunningTowerCount,
    STAGE_1_DELTA_T, STAGE_2_DELTA_T, STAGE_3_DELTA_T, STAGE_4_DELTA_T,
    controlPumps, checkPumpFailure, checkPumpRotation, findNextAvailablePump,
    PUMP_AVAILABLE, updatePumpRuntime, ControlResult.setEnable, ControlResult.setSpeed,
    ControlResult.setIsoOpen, ControlResult.setIsoClose, ControlResult.setPumpEnable,
    ControlResult.setHeater, Tri.get, Tri.set, controlTowers, canEnableTower,
    TOWER_AVAILABLE, enableTower, calculateTowerSpeed, calculateFallbackSpeed,
    applySpeedRamping, enforceMinimumRuntimes, enforceOne, jsSet, MINIMUM_RUNTIME_MS,
    MINIMUM_OFFTIME_MS, PUMP_CHANGEOVER_OVERLAP_MS, controlValves, clampValve,
    applyFallbackValveControl, controlHeaters, applyCurrentAndVibrationMonitoring,
    vfdWarnFault, vibWarnFault, clampWarnSpeed, VIBRATION_WARNING_LIMIT,
    VIBRATION_CRITICAL_LIMIT, VFD_CURRENT_WARNING, VFD_CURRENT_CRITICAL,
    PUMP_CURRENT_MIN, PUMP_CURRENT_MAX, VFD_MIN_SPEED, VFD_MAX_SPEED, VFD_LOW_SPEED,
    updateControlResultSummary, coerceSubMinimum, TOWER_ID, c5data, c5state, c5state1,
    c5state2, PidStates.getTower, PidStates.setTower]
  have h2 : (step none c5data {} c5state1 1000003000).2 = c5state2 ∧
      (step none c5data {} c5state1 1000003000).1.pumpEnable = ⟨true, true, false⟩ ∧
      (step none c5data {} c5state1 1000003000).2.pumps.changeoverState =
        some ⟨2, 1000000000⟩ := by
    norm_num [step, parseSensorData, sanitizeTemperatures, jsOr, mkInitialState, Tri.const,
    initControlResult, performSafetyChecks, criticalFaultList, vibCritFault, vfdCritFault,
    pumpOverFault, safetyBypassList, BYPASS_VIBRATION_LIMITS, BYPASS_CURRENT_LIMITS,
    BYPASS_EMERGENCY_STOP, BYPASS_WATER_LEVEL, BYPASS_PUMP_STATUS, BYPASS_VFD_FAULTS,
    applyManualOverrides, autoSequence, performLeadTowerRotation, WEEK_IN_MS,
    calculateStaging, isAnyTowerCurrentlyRunning, getCurrentlyRunningTowerCount,
    STAGE_1_DELTA_T, STAGE_2_DELTA_T, STAGE_3_DELTA_T, STAGE_4_DELTA_T,
    controlPumps, checkPumpFailure, checkPumpRotation, findNextAvailablePump,
    PUMP_AVAILABLE, updatePumpRuntime, ControlResult.setEnable, ControlResult.setSpeed,
    ControlResult.setIsoOpen, ControlResult.setIsoClose, ControlResult.setPumpEnable,
    ControlResult.setHeater, Tri.get, Tri.set, controlTowers, canEnableTower,
    TOWER_AVAILABLE, enableTower, calculateTowerSpeed, calculateFallbackSpeed,
    applySpeedRamping, enforceMinimumRuntimes, enforceOne, jsSet, MINIMUM_RUNTIME_MS,
    MINIMUM_OFFTIME_MS, PUMP_CHANGEOVER_OVERLAP_MS, controlValves, clampValve,
    applyFallbackValveControl, controlHeaters, applyCurrentAndVibrationMonitoring,
    vfdWarnFault, vibWarnFault, clampWarnSpeed, VIBRATION_WARNING_LIMIT,
    VIBRATION_CRITICAL_LIMIT, VFD_CURRENT_WARNING, VFD_CURRENT_CRITICAL,
    PUMP_CURRENT_MIN, PUMP_CURRENT_MAX, VFD_MIN_SPEED, VFD_MAX_SPEED, VFD_LOW_SPEED,
    updateControlResultSummary, coerceSubMinimum, TOWER_ID, c5data, c5state, c5state1,
    c5state2, PidStates.getTower, PidStates.setTower]
  have h3 : (step none c5data {} c5state2 1000009000).1.pumpEnable =
        ⟨false, true, false⟩ ∧
      (step none c5data {} c5state2 1000009000).2.pumps.activePump = 2 ∧
      (step none c5data {} c5state2 1000009000).2.pumps.changeoverState = none := by
    norm_num [step, parseSensorData, sanitizeTemperatures, jsOr, mkInitialState, Tri.const,
    initControlResult, performSafetyChecks, criticalFaultList, vibCritFault, vfdCritFault,
    pumpOverFault, safetyBypassList, BYPASS_VIBRATION_LIMITS, BYPASS_CURRENT_LIMITS,
    BYPASS_EMERGENCY_STOP, BYPASS_WATER_LEVEL, BYPASS_PUMP_STATUS, BYPASS_VFD_FAULTS,
    applyManualOverrides, autoSequence, performLeadTowerRotation, WEEK_IN_MS,
    calculateStaging, isAnyTowerCurrentlyRunning, getCurrentlyRunningTowerCount,
    STAGE_1_DELTA_T, STAGE_2_DELTA_T, STAGE_3_DELTA_T, STAGE_4_DELTA_T,
    controlPumps, checkPumpFailure, checkPumpRotation, findNextAvailablePump,
    PUMP_AVAILABLE, updatePumpRuntime, ControlResult.setEnable, ControlResult.setSpeed,
    ControlResult.setIsoOpen, ControlResult.setIsoClose, ControlResult.setPumpEnable,
    ControlResult.setHeater, Tri.get, Tri.set, controlTowers, canEnableTower,
    TOWER_AVAILABLE, enableTower, calculateTowerSpeed, calculateFallbackSpeed,
    applySpeedRamping, enforceMinimumRuntimes, enforceOne, jsSet, MINIMUM_RUNTIME_MS,
    MINIMUM_OFFTIME_MS, PUMP_CHANGEOVER_OVERLAP_MS, controlValves, clampValve,
    applyFallbackValveControl, controlHeaters, applyCurrentAndVibrationMonitoring,
    vfdWarnFault, vibWarnFault, clampWarnSpeed, VIBRATION_WARNING_LIMIT,
    VIBRATION_CRITICAL_LIMIT, VFD_CURRENT_WARNING, VFD_CURRENT_CRITICAL,
    PUMP_CURRENT_MIN, PUMP_CURRENT_MAX, VFD_MIN_SPEED, VFD_MAX_SPEED, VFD_LOW_SPEED,
    updateControlResultSummary, coerceSubMinimum, TOWER_ID, c5data, c5state, c5state1,
    c5state2, PidStates.getTower, PidStates.setTower]
  rw [h1.1] at *
  rw [h2.1] at *
  exact ⟨h1.2.1, h1.2.2, h2.2.1, h2.2.2, h3.1, h3.2.1, h3.2.2⟩

-- ================= CLAIM C9 (heater hysteresis) =================

/-- Tick inputs for the heater-hysteresis failing run: outdoor 30 degF,
then outdoor 40 degF on the following tick. -/
def c9data1 : RawData :=
  { CH8 := some 20
    CH5 := some 20
    CH6 := some 20
    CH2 := some 75
    CH10 := some 80
    CH9 := some 85
    CH1 := some 85
    outdoorTemp := some 30 }

def c9data2 : RawData := { c9data1 with outdoorTemp := some 40 }

/-- Carried state after the outdoor-30 tick. -/
def c9state1 : CtState :=
  { mkInitialState 1000000000 with
      pumps := { (mkInitialState 1000000000).pumps with
        runtimeTracking := ⟨7 / 3600000, 0, 0⟩ }
      lastGoodTemps := ⟨80, 85, 85, 75⟩ }

set_option maxHeartbeats 8000000 in
/-- Claim C9 at the failing input: at outdoor 30 degF all heater outputs
are commanded on; on the very next tick at outdoor 40 degF, inside the
35..45 degF hysteresis band where the previous (on) state must be
preserved, all heater outputs are commanded off, because each tick
rebuilds the result with heaters defaulted off and no heater state is
carried between ticks. -/
theorem claim9_heater_bug :
    (step none c9data1 {} (mkInitialState 1000000000) 1000000000).1.heaterEnable =
      Tri.const true ∧
    ((35 : ℚ) ≤ 40 ∧ (40 : ℚ) ≤ 45) ∧
    (step none c9data2 {}
        (step none c9data1 {} (mkInitialState 1000000000) 1000000000).2
        1000007000).1.heaterEnable = Tri.const false := by
  have h1 : (step none c9data1 {} (mkInitialState 1000000000) 1000000000).2 = c9state1 ∧
      (step none c9data1 {} (mkInitialState 1000000000) 1000000000).1.heaterEnable =
        Tri.const true := by
    norm_num [step, parseSensorData, sanitizeTemperatures, jsOr, mkInitialState, Tri.const,
    initControlResult, performSafetyChecks, criticalFaultList, vibCritFault, vfdCritFault,
    pumpOverFault, safetyBypassList, BYPASS_VIBRATION_LIMITS, BYPASS_CURRENT_LIMITS,
    BYPASS_EMERGENCY_STOP, BYPASS_WATER_LEVEL, BYPASS_PUMP_STATUS, BYPASS_VFD_FAULTS,
    applyManualOverrides, autoSequence, performLeadTowerRotation, WEEK_IN_MS,
    calculateStaging, isAnyTowerCurrentlyRunning, getCurrentlyRunningTowerCount,
    STAGE_1_DELTA_T, STAGE_2_DELTA_T, STAGE_3_DELTA_T, STAGE_4_DELTA_T,
    controlPumps, checkPumpFailure, checkPumpRotation, findNextAvailablePump,
    PUMP_AVAILABLE, updatePumpRuntime, ControlResult.setEnable, ControlResult.setSpeed,
    ControlResult.setIsoOpen, ControlResult.setIsoClose, ControlResult.setPumpEnable,
    ControlResult.setHeater, Tri.get, Tri.set, controlTowers, canEnableTower,
    TOWER_AVAILABLE, enableTower, calculateTowerSpeed, calculateFallbackSpeed,
    applySpeedRamping, enforceMinimumRuntimes, enforceOne, jsSet, MINIMUM_RUNTIME_MS,
    MINIMUM_OFFTIME_MS, PUMP_CHANGEOVER_OVERLAP_MS, controlValves, clampValve,
    applyFallbackValveControl, controlHeaters, applyCurrentAndVibrationMonitoring,
    vfdWarnFault, vibWarnFault, clampWarnSpeed, VIBRATION_WARNING_LIMIT,
    VIBRATION_CRITICAL_LIMIT, VFD_CURRENT_WARNING, VFD_CURRENT_CRITICAL,
    PUMP_CURRENT_MIN, PUMP_CURRENT_MAX, VFD_MIN_SPEED, VFD_MAX_SPEED, VFD_LOW_SPEED,
    updateControlResultSummary, coerceSubMinimum, TOWER_ID, c9data1, c9data2, c9state1,
    PidStates.getTower, PidStates.setTower]
  have h2 : (step none c9data2 {} c9state1 1000007000).1.heaterEnable =
      Tri.const false := by
    norm_num [step, parseSensorData, sanitizeTemperatures, jsOr, mkInitialState, Tri.const,
    initControlResult, performSafetyChecks, criticalFaultList, vibCritFault, vfdCritFault,
    pumpOverFault, safetyBypassList, BYPASS_VIBRATION_LIMITS, BYPASS_CURRENT_LIMITS,
    BYPASS_EMERGENCY_STOP, BYPASS_WATER_LEVEL, BYPASS_PUMP_STATUS, BYPASS_VFD_FAULTS,
    applyManualOverrides, autoSequence, performLeadTowerRotation, WEEK_IN_MS,
    calculateStaging, isAnyTowerCurrentlyRunning, getCurrentlyRunningTowerCount,
    STAGE_1_DELTA_T, STAGE_2_DELTA_T, STAGE_3_DELTA_T, STAGE_4_DELTA_T,
    controlPumps, checkPumpFailure, checkPumpRotation, findNextAvailablePump,
    PUMP_AVAILABLE, updatePumpRuntime, ControlResult.setEnable, ControlResult.setSpeed,
    ControlResult.setIsoOpen, ControlResult.setIsoClose, ControlResult.setPumpEnable,
    ControlResult.setHeater, Tri.get, Tri.set, controlTowers, canEnableTower,
    TOWER_AVAILABLE, enableTower, calculateTowerSpeed, calculateFallbackSpeed,
    applySpeedRamping, enforceMinimumRuntimes, enforceOne, jsSet, MINIMUM_RUNTIME_MS,
    MINIMUM_OFFTIME_MS, PUMP_CHANGEOVER_OVERLAP_MS, controlValves, clampValve,
    applyFallbackValveControl, controlHeaters, applyCurrentAndVibrationMonitoring,
    vfdWarnFault, vibWarnFault, clampWarnSpeed, VIBRATION_WARNING_LIMIT,
    VIBRATION_CRITICAL_LIMIT, VFD_CURRENT_WARNING, VFD_CURRENT_CRITICAL,
    PUMP_CURRENT_MIN, PUMP_CURRENT_MAX, VFD_MIN_SPEED, VFD_MAX_SPEED, VFD_LOW_SPEED,
    updateControlResultSummary, coerceSubMinimum, TOWER_ID, c9data1, c9data2, c9state1,
    PidStates.getTower, PidStates.setTower]
  rw [h1.1]
  exact ⟨h1.2, by norm_num, h2⟩

-- ================= CLAIM C10 (manual-mode early return) =================

/-- Claim C10 (amended): with no critical fault, when the UI disables the
system or selects a non-auto control mode, the tick returns right after
applying manual overrides: all pump enables false; tower VFD enables,
fan speeds and heater enables equal the per-tower UI overrides with
defaults false/0/false (heaters are NOT unconditionally false: a heater
override survives); bypass and tempering outputs are 2.0 V; and the
carried tower timers, ramp state, pump rotation state and PID states are
left unchanged. -/
theorem claim10_manual_return (pid? : Option PidFn) (data : RawData)
    (ui : UICommands) (s : CtState) (now : Int)
    (hsafe : criticalFaultList (parseSensorData data s.lastGoodTemps).1 = [])
    (hmode : ui.systemEnabled = some false ∨
             (∃ m, ui.controlMode = some m ∧ m ≠ "auto")) :
    (step pid? data ui s now).1.pumpEnable = Tri.const false ∧
    (step pid? data ui s now).1.vfdEnable =
      ⟨ui.towerVFDEnable.a.getD false, ui.towerVFDEnable.b.getD false,
       ui.towerVFDEnable.c.getD false⟩ ∧
    (step pid? data ui s now).1.fanSpeed =
      ⟨ui.towerFanSpeed.a.getD 0, ui.towerFanSpeed.b.getD 0,
       ui.towerFanSpeed.c.getD 0⟩ ∧
    (step pid? data ui s now).1.heaterEnable =
      ⟨ui.towerHeaterEnable.a.getD false, ui.towerHeaterEnable.b.getD false,
       ui.towerHeaterEnable.c.getD false⟩ ∧
    (step pid? data ui s now).1.bypassValvePosition = 2 ∧
    (step pid? data ui s now).1.temperingValvePosition = 2 ∧
    (step pid? data ui s now).2.towers = s.towers ∧
    (step pid? data ui s now).2.pumps = s.pumps ∧
    (step pid? data ui s now).2.pidStates = s.pidStates := by
  simp only [step, performSafetyChecks, hsafe]
  norm_num
  rw [if_pos]
  · refine ⟨?_, ?_, ?_, ?_, ?_, ?_, ?_, ?_, ?_⟩ <;>
      norm_num [applyManualOverrides, performSafetyChecks, hsafe, initControlResult,
        Tri.const]
  · rcases hmode with h | ⟨m, hm, hne⟩
    · left
      simp [applyManualOverrides, h]
    · right
      simp [applyManualOverrides, hm, initControlResult, Tri.const]
      exact hne

def c10data : RawData :=
  { CH8 := some 20
    CH5 := some 20
    CH6 := some 20
    CH2 := some 75
    CH10 := some 80
    CH9 := some 85
    CH1 := some 85
    outdoorTemp := some 75 }

def c10ui : UICommands :=
  { controlMode := some "manual"
    towerHeaterEnable := ⟨some true, none, none⟩ }

set_option maxHeartbeats 4000000 in
/-- Claim C10 counterexample: in manual mode with a tower-1 heater
override and no critical fault, the early return reports heater 1 on,
where the claim requires every heater enable false. -/
theorem claim10_cex :
    (step none c10data c10ui (mkInitialState 1000000000) 1000000000).1.controlMode =
      "manual" ∧
    (step none c10data c10ui (mkInitialState 1000000000) 1000000000).1.alarmStatus =
      "normal" ∧
    (step none c10data c10ui (mkInitialState 1000000000) 1000000000).1.heaterEnable.a =
      true := by
  norm_num [step, parseSensorData, sanitizeTemperatures, jsOr, mkInitialState, Tri.const,
    initControlResult, performSafetyChecks, criticalFaultList, vibCritFault, vfdCritFault,
    pumpOverFault, safetyBypassList, BYPASS_VIBRATION_LIMITS, BYPASS_CURRENT_LIMITS,
    BYPASS_EMERGENCY_STOP, BYPASS_WATER_LEVEL, BYPASS_PUMP_STATUS, BYPASS_VFD_FAULTS,
    applyManualOverrides, VIBRATION_CRITICAL_LIMIT, VFD_CURRENT_CRITICAL,
    PUMP_CURRENT_MIN, PUMP_CURRENT_MAX, c10data, c10ui]
  all_goals rw [if_neg (by decide : ¬ ("manual" : String) = "auto")]
  all_goals norm_num

/-- Witness for claim C10 at a concrete input. -/
theorem claim10_manual_return_wit :
    criticalFaultList (parseSensorData c10data (mkInitialState 0).lastGoodTemps).1 = [] ∧
    (c10ui.systemEnabled = some false ∨
      (∃ m, c10ui.controlMode = some m ∧ m ≠ "auto")) ∧
    ((step none c10data c10ui (mkInitialState 0) 0).1.pumpEnable = Tri.const false ∧
     (step none c10data c10ui (mkInitialState 0) 0).1.heaterEnable =
       ⟨c10ui.towerHeaterEnable.a.getD false, c10ui.towerHeaterEnable.b.getD false,
        c10ui.towerHeaterEnable.c.getD false⟩ ∧
     (step none c10data c10ui (mkInitialState 0) 0).2.towers = (mkInitialState 0).towers ∧
     (step none c10data c10ui (mkInitialState 0) 0).2.pumps = (mkInitialState 0).pumps) := by
  have hsafe : criticalFaultList (parseSensorData c10data
      (mkInitialState 0).lastGoodTemps).1 = [] := by
    norm_num [criticalFaultList, parseSensorData, sanitizeTemperatures, jsOr,
      mkInitialState, Tri.const, vibCritFault, vfdCritFault, pumpOverFault,
      BYPASS_VIBRATION_LIMITS, BYPASS_CURRENT_LIMITS, VIBRATION_CRITICAL_LIMIT,
      VFD_CURRENT_CRITICAL, PUMP_CURRENT_MAX, c10data]
  have hmode : c10ui.systemEnabled = some false ∨
      (∃ m, c10ui.controlMode = some m ∧ m ≠ "auto") :=
    Or.inr ⟨"manual", rfl, by decide⟩
  have h := claim10_manual_return none c10data c10ui (mkInitialState 0) 0 hsafe hmode
  exact ⟨hsafe, hmode, h.1, h.2.2.2.1, h.2.2.2.2.2.2.1, h.2.2.2.2.2.2.2.1⟩

-- ================= CLAIM C1 (safety gate) =================

/-- Any critical sensor condition makes the fault list nonempty. -/
theorem criticalFaultList_ne_nil (sensor : SensorData)
    (h : sensor.vibration.a > 7.1 ∨ sensor.vibration.b > 7.1 ∨
         sensor.vibration.c > 7.1 ∨
         sensor.vfdCurrents.tower1A > 45 ∨ sensor.vfdCurrents.tower1B > 45 ∨
         sensor.vfdCurrents.tower2A > 45 ∨ sensor.vfdCurrents.tower2B > 45 ∨
         sensor.vfdCurrents.tower3A > 45 ∨ sensor.vfdCurrents.tower3B > 45 ∨
         sensor.pumpCurrents.a > 45 ∨ sensor.pumpCurrents.b > 45 ∨
         sensor.pumpCurrents.c > 45) :
    criticalFaultList sensor ≠ [] := by
  intro hemp
  simp only [criticalFaultList, BYPASS_VIBRATION_LIMITS, BYPASS_CURRENT_LIMITS,
    Bool.false_eq_true, if_false, List.append_eq_nil, vibCritFault, vfdCritFault,
    pumpOverFault, VIBRATION_CRITICAL_LIMIT, VFD_CURRENT_CRITICAL, PUMP_CURRENT_MAX,
    ite_eq_right_iff] at hemp
  rcases h with h|h|h|h|h|h|h|h|h|h|h|h <;> norm_num at hemp <;> linarith

/-- Claim C1: whenever any parsed critical fault condition holds (tower
vibration above 7.1 mm/s, any VFD leg current above 45 A, or any pump
current above 45 A, with all bypass flags false in the configuration),
the tick returns the safe-shutdown output: all VFD enables false, all fan
speeds 0, all isolation-valve close commands asserted (open cleared), all
pump enables false, heaters off (their default safe state), bypass and
tempering at 2.0 V, alarm critical with the fault list included, and the
carried tower timers and pump state are not mutated. -/
theorem claim1_safe_shutdown (pid? : Option PidFn) (data : RawData)
    (ui : UICommands) (s : CtState) (now : Int)
    (h : (parseSensorData data s.lastGoodTemps).1.vibration.a > 7.1 ∨
         (parseSensorData data s.lastGoodTemps).1.vibration.b > 7.1 ∨
         (parseSensorData data s.lastGoodTemps).1.vibration.c > 7.1 ∨
         (parseSensorData data s.lastGoodTemps).1.vfdCurrents.tower1A > 45 ∨
         (parseSensorData data s.lastGoodTemps).1.vfdCurrents.tower1B > 45 ∨
         (parseSensorData data s.lastGoodTemps).1.vfdCurrents.tower2A > 45 ∨
         (parseSensorData data s.lastGoodTemps).1.vfdCurrents.tower2B > 45 ∨
         (parseSensorData data s.lastGoodTemps).1.vfdCurrents.tower3A > 45 ∨
         (parseSensorData data s.lastGoodTemps).1.vfdCurrents.tower3B > 45 ∨
         (parseSensorData data s.lastGoodTemps).1.pumpCurrents.a > 45 ∨
         (parseSensorData data s.lastGoodTemps).1.pumpCurrents.b > 45 ∨
         (parseSensorData data s.lastGoodTemps).1.pumpCurrents.c > 45) :
    (step pid? data ui s now).1.vfdEnable = Tri.const false ∧
    (step pid? data ui s now).1.fanSpeed = Tri.const 0 ∧
    (step pid? data ui s now).1.isoClose = Tri.const true ∧
    (step pid? data ui s now).1.isoOpen = Tri.const false ∧
    (step pid? data ui s now).1.pumpEnable = Tri.const false ∧
    (step pid? data ui s now).1.heaterEnable = Tri.const false ∧
    (step pid? data ui s now).1.bypassValvePosition = 2 ∧
    (step pid? data ui s now).1.temperingValvePosition = 2 ∧
    (step pid? data ui s now).1.alarmStatus = "critical" ∧
    (step pid? data ui s now).1.faultConditions =
      criticalFaultList (parseSensorData data s.lastGoodTemps).1 ∧
    (step pid? data ui s now).1.faultConditions ≠ [] ∧
    (step pid? data ui s now).2.towers = s.towers ∧
    (step pid? data ui s now).2.pumps = s.pumps := by
  have hne := criticalFaultList_ne_nil _ h
  simp only [step, performSafetyChecks, if_pos hne]
  norm_num [initControlResult, Tri.const]
  exact hne


def c1data : RawData :=
  { CH8 := some 20
    CH5 := some 20
    CH6 := some 20
    CH2 := some 75
    CH10 := some 80
    CH9 := some 85
    CH1 := some 85
    outdoorTemp := some 75
    WTV801_1 := some 10 }

/-- Witness for claim C1 at a concrete input (tower-1 vibration 10 mm/s). -/
theorem claim1_safe_shutdown_wit :
    ((parseSensorData c1data (mkInitialState 0).lastGoodTemps).1.vibration.a > 7.1) ∧
    ((step none c1data {} (mkInitialState 0) 0).1.vfdEnable = Tri.const false ∧
     (step none c1data {} (mkInitialState 0) 0).1.alarmStatus = "critical" ∧
     (step none c1data {} (mkInitialState 0) 0).1.faultConditions ≠ [] ∧
     (step none c1data {} (mkInitialState 0) 0).2.towers = (mkInitialState 0).towers ∧
     (step none c1data {} (mkInitialState 0) 0).2.pumps = (mkInitialState 0).pumps) := by
  have hvib : (parseSensorData c1data (mkInitialState 0).lastGoodTemps).1.vibration.a
      > 7.1 := by
    norm_num [parseSensorData, sanitizeTemperatures, jsOr, mkInitialState, Tri.const,
      c1data]
  have h := claim1_safe_shutdown none c1data {} (mkInitialState 0) 0 (Or.inl hvib)
  exact ⟨hvib, h.1, h.2.2.2.2.2.2.2.2.1, h.2.2.2.2.2.2.2.2.2.2.1,
    h.2.2.2.2.2.2.2.2.2.2.2.1, h.2.2.2.2.2.2.2.2.2.2.2.2⟩

end CoolingTower
